import Mathlib

/-!
Verification development for the `gwsurrogate` surrogate evaluation engine
(`gwsurrogate/surrogate.py`).

Shallow embedding conventions:

* Machine floats are modelled by exact rationals `ℚ`; complex arrays by lists
  of `Cq` (a pair of rationals).  All claim statements are about exact
  arithmetic identities or control flow, never about rounding.
* Python exceptions are modelled by the `Exc` type and fallible routines
  return `Except Exc α`.  A Python `raise Warning(...)` is `Exc.warningExc`:
  in Python, `Warning` is an `Exception` subclass, so `raise Warning(...)`
  aborts the call exactly like any other uncaught exception.
* External primitives that the evaluation engine calls but that live outside
  `surrogate.py` (numpy's complex exponential, the `gwtools` helpers, the
  spherical harmonic `sYlm`) are packaged as unconstrained function fields of
  a `Gwtools` structure; every theorem quantifies over them, so no property
  of the external library is assumed.  `scipy.interpolate.splev` is modelled
  by `splev` below, from its documented `ext` semantics, with the fitted
  spline of each basis column abstracted as a total function `ℚ → ℚ`
  (the polynomial piecewise extension): these spline functions are data of
  the record, exactly as the spline parameter blocks `*_spline_params` are
  attributes of the Python object.
* The resampling flag returned by `_h_sur` (and threaded through
  `call_single`) instruments which branch of the source was taken: it is
  `true` exactly on the code path that calls `resample_B`/`resample_B_1`/
  `resample_B_2`, and lets "no spline resampling was invoked" be stated.
-/

/-- Complex number with rational real and imaginary part (models a complex
double with exact arithmetic). -/
structure Cq where
  re : ℚ
  im : ℚ
deriving DecidableEq, Repr

instance : Zero Cq := ⟨⟨0, 0⟩⟩

instance : Add Cq := ⟨fun a b => ⟨a.re + b.re, a.im + b.im⟩⟩

instance : Mul Cq := ⟨fun a b => ⟨a.re * b.re - a.im * b.im, a.re * b.im + a.im * b.re⟩⟩

/-- Scalar (real) multiple of a complex value. -/
def Cq.smul (c : ℚ) (z : Cq) : Cq := ⟨c * z.re, c * z.im⟩

@[simp] theorem Cq.zero_re : (0 : Cq).re = 0 := rfl

@[simp] theorem Cq.zero_im : (0 : Cq).im = 0 := rfl

@[simp] theorem Cq.add_re (a b : Cq) : (a + b).re = a.re + b.re := rfl

@[simp] theorem Cq.add_im (a b : Cq) : (a + b).im = a.im + b.im := rfl

@[simp] theorem Cq.mul_re (a b : Cq) : (a * b).re = a.re * b.re - a.im * b.im := rfl

@[simp] theorem Cq.mul_im (a b : Cq) : (a * b).im = a.re * b.im + a.im * b.re := rfl

@[simp] theorem Cq.smul_re (c : ℚ) (z : Cq) : (Cq.smul c z).re = c * z.re := rfl

@[simp] theorem Cq.smul_im (c : ℚ) (z : Cq) : (Cq.smul c z).im = c * z.im := rfl

/-- Python exception classes raised by the evaluation engine.  `warningExc`
models `raise Warning(...)` — fatal when uncaught, like every exception. -/
inductive Exc where
  | valueError (msg : String)
  | warningExc (msg : String)
  | keyError (msg : String)
  | ioError (msg : String)
  | nameError (msg : String)
deriving DecidableEq, Repr

instance {α : Type} [DecidableEq α] : DecidableEq (Except Exc α) := fun a b =>
  match a, b with
  | .ok x, .ok y => if h : x = y then .isTrue (by rw [h]) else .isFalse (by simp [h])
  | .error e, .error f => if h : e = f then .isTrue (by rw [h]) else .isFalse (by simp [h])
  | .ok _, .error _ => .isFalse (by simp)
  | .error _, .ok _ => .isFalse (by simp)

/-- Complex dot product (models `np.dot` of a matrix row with a vector). -/
def dotC (row v : List Cq) : Cq := (List.zipWith (· * ·) row v).foldl (· + ·) 0

/-- Complex matrix–vector product; the matrix is a list of rows. -/
def matVecC (B : List (List Cq)) (v : List Cq) : List Cq := B.map (fun row => dotC row v)

/-- Rational dot product. -/
def dotQ (row v : List ℚ) : ℚ := (List.zipWith (· * ·) row v).foldl (· + ·) 0

/-- Rational matrix–vector product; the matrix is a list of rows. -/
def matVecQ (B : List (List ℚ)) (v : List ℚ) : List ℚ := B.map (fun row => dotQ row v)

/-- `range(a, b)` over the integers, as in Python. -/
def intRange (a b : ℤ) : List ℤ := (List.range (b - a).toNat).map (fun (i : ℕ) => a + (i : ℤ))

/-- External primitives used by `surrogate.py` but defined outside it
(numpy, `gwtools`, `harmonics`).  They are data, not axioms: every theorem
holds for an arbitrary choice of these functions.

* `cis θ` models `np.exp(1j*θ)`.
* `find_instant_freq` models `gwtools.find_instant_freq` (instantaneous
  starting frequency from `(h+, h×, t)`).
* `amp_phase` models `gwtools.amp_phase` (amplitude/phase decomposition).
* `sYlm s l m θ φ` models the spin-weighted spherical harmonic. -/

structure Gwtools where
  cis : ℚ → Cq
  find_instant_freq : List ℚ → List ℚ → List ℚ → ℚ
  amp_phase : List Cq → List ℚ × List ℚ
  sYlm : ℤ → ℤ → ℤ → ℚ → ℚ → Cq

/-- Modelled from the spec: `gwtools.modify_phase(h, φ)` applies the uniform
phase factor `exp(i·φ)` to every sample ("rotate the complex waveform by a
uniform phase shift applied to every sample", §4.5; "applies a phase factor
`exp(i·m·z_rot)` to each mode", §4.6).  `gwtools.py` is not under `src/`. -/
def modify_phase (gt : Gwtools) (h : List Cq) (phi : ℚ) : List Cq :=
  h.map (fun z => z * gt.cis phi)

/-- Physical constant `gwtools.MSUN_SI` (kg); exact value immaterial to every claim. -/
def MSUN_SI : ℚ := 1989 * 10 ^ 27

/-- Physical constant `gwtools.PC_SI` (m); exact value immaterial to every claim. -/
def PC_SI : ℚ := 30857 * 10 ^ 12

/-- Physical constant `gwtools.G`; exact value immaterial to every claim. -/
def Gconst : ℚ := 6674 / 10 ^ 14

/-- Physical constant `gwtools.c`; exact value immaterial to every claim. -/
def cconst : ℚ := 299792458

/-- Physical constant `gwtools.Msuninsec`; exact value immaterial to every claim. -/
def Msuninsec : ℚ := 4925 / 10 ^ 9

/-- The two valid `surrogate_mode_type` tags (any other string raises
`ValueError('invalid surrogate type')` at load time, so a constructed record
always carries one of these two). -/
inductive SurrogateModeType where
  | waveform_basis
  | amp_phase_basis
deriving DecidableEq, Repr

/-- The three valid `affine_map` tags (any other string raises
`ValueError('unknown affine map')`). -/
inductive AffineMapKind where
  | minus1_to_1
  | zero_to_1
  | none_map
deriving DecidableEq, Repr

/-- One loaded single-mode surrogate: the data attributes of
`EvaluateSingleModeSurrogate` after `__init__`.

* Fit functions come from the registry `parametric_funcs.function_dict`
  keyed by the `fit_type_*` strings; the registry lives outside
  `surrogate.py`, so the selected callables are unconstrained record fields.
  In Python one callable is used both per coefficient row (scalar result)
  and, for the "fast" fit types, on the whole coefficient block (vector
  result); the typed embedding splits these two use sites into `*_fit_func`
  and `*_fit_func_vec`.
* `reB_spline_params`/`imB_spline_params`/`B1_spline_params`/
  `B2_spline_params` are the per-column cubic splines built by `__init__`
  (`_splrep` of each basis column over `times`), abstracted as total
  functions `ℚ → ℚ`.
* `param_id` models the identity of the `get_surr_params` parameterization
  callable (compared with `!=` in `EvaluateSurrogate.__init__`). -/

structure SurrogateData where
  times : List ℚ
  fit_interval : ℚ × ℚ
  affine_map : AffineMapKind
  surrogate_mode_type : SurrogateModeType
  surrogate_units : String
  fit_type_amp : String
  fit_type_phase : String
  fitparams_amp : List (List ℚ)
  fitparams_phase : List (List ℚ)
  fitparams_norm : List ℚ
  amp_fit_func : List ℚ → ℚ → ℚ
  phase_fit_func : List ℚ → ℚ → ℚ
  norm_fit_func : List ℚ → ℚ → ℚ
  amp_fit_func_vec : List (List ℚ) → ℚ → List ℚ
  phase_fit_func_vec : List (List ℚ) → ℚ → List ℚ
  norms : Bool
  B : List (List Cq)
  B_1 : List (List ℚ)
  B_2 : List (List ℚ)
  reB_spline_params : List (ℚ → ℚ)
  imB_spline_params : List (ℚ → ℚ)
  B1_spline_params : List (ℚ → ℚ)
  B2_spline_params : List (ℚ → ℚ)
  get_surr_params : ℚ → ℚ
  param_id : ℕ

/-- First native time sample, `self.times[0]`. -/
def tmin (r : SurrogateData) : ℚ := r.times.headD 0

/-- Last native time sample, `self.times[-1]` (the end of the spline's
trained interval). -/
def tmax (r : SurrogateData) : ℚ := r.times.getLastD 0

/-- `scipy.interpolate.splev(x, tck, ext=ext)`, modelled from its documented
semantics with the fitted spline abstracted as the total function `tck`
(inside the trained interval `tck` is the interpolant; outside, its
polynomial extension).  `ext=0`: extrapolate; `ext=1`: return 0; `ext=3`:
return the boundary value.  (`ext=2`, raise, is never used by this code.) -/
def splev (x : ℚ) (tck : ℚ → ℚ) (t_lo t_hi : ℚ) (ext : ℕ) : ℚ :=
  if t_lo ≤ x ∧ x ≤ t_hi then tck x
  else if ext = 0 then tck x
  else if ext = 1 then 0
  else if ext = 3 then (if x < t_lo then tck t_lo else tck t_hi)
  else 0

/-- One row of the resampled complex basis: every column's real and
imaginary spline evaluated at time `t` with extrapolation mode `ext`. -/
def resample_B_row (r : SurrogateData) (ext : ℕ) (t : ℚ) : List Cq :=
  (r.reB_spline_params.zip r.imB_spline_params).map
    (fun s => ⟨splev t s.1 (tmin r) (tmax r) ext, splev t s.2 (tmin r) (tmax r) ext⟩)

/-- `resample_B(samples)`: evaluate every column spline at `samples` with
`ext=1` (zero outside the trained interval), then, if the first query time
is within the code's near-boundary tolerance of `times[0]`, recompute the
first row with the default `ext=0` (extrapolation allowed). -/
def resample_B (r : SurrogateData) (samples : List ℚ) : List (List Cq) :=
  match samples with
  | [] => []
  | s0 :: _ =>
    let evaluations := samples.map (resample_B_row r 1)
    let t0 := tmin r
    if |s0 - t0| < t0 * (1 / 10 ^ 12) ∨ (t0 = 0 ∧ |s0 - t0| < 1 / 10 ^ 12) then
      resample_B_row r 0 s0 :: evaluations.tail
    else evaluations

/-- One row of the resampled `B_1` basis (always `ext=1`). -/
def resample_B1_row (r : SurrogateData) (t : ℚ) : List ℚ :=
  r.B1_spline_params.map (fun s => splev t s (tmin r) (tmax r) 1)

/-- One row of the resampled `B_2` basis (always `ext=1`). -/
def resample_B2_row (r : SurrogateData) (t : ℚ) : List ℚ :=
  r.B2_spline_params.map (fun s => splev t s (tmin r) (tmax r) 1)

/-- `resample_B_1(samples)`.  Its boundary test divides by `times[0]`
(in ℚ, division by zero yields 0; numpy would produce inf/nan — the branch
choice can differ there, but both branches compute the identical `ext=1`
row, so the value never differs), and its "corrected" first row is
recomputed with the same `ext=1`, so the correction is value-neutral. -/
def resample_B_1 (r : SurrogateData) (samples : List ℚ) : List (List ℚ) :=
  match samples with
  | [] => []
  | s0 :: _ =>
    let evaluations := samples.map (resample_B1_row r)
    if |s0 - tmin r| / tmin r < 1 / 10 ^ 12 then
      resample_B1_row r s0 :: evaluations.tail
    else evaluations

/-- `resample_B_2(samples)`; same structure as `resample_B_1`. -/
def resample_B_2 (r : SurrogateData) (samples : List ℚ) : List (List ℚ) :=
  match samples with
  | [] => []
  | s0 :: _ =>
    let evaluations := samples.map (resample_B2_row r)
    if |s0 - tmin r| / tmin r < 1 / 10 ^ 12 then
      resample_B2_row r s0 :: evaluations.tail
    else evaluations

/-- `check_training_interval(x, strong_checking)`: outside the training
interval, strict checking raises `ValueError` (the spec's
`ParameterOutOfRangeError`) and lenient checking only emits a warning
(Python prints it and builds an unraised `Warning` object) and returns
normally.  The returned list holds the warnings emitted. -/
def check_training_interval (r : SurrogateData) (x : ℚ) (strong_checking : Bool) :
    Except Exc (List String) :=
  let x_min := r.fit_interval.1
  let x_max := r.fit_interval.2
  if x < x_min ∨ x > x_max then
    if strong_checking then
      Except.error (Exc.valueError ("Surrogate not trained at requested parameter value"))
    else
      Except.ok [("Warning: Surrogate not trained at requested parameter value")]
  else Except.ok []

/-- `get_surr_params_safe(x)`: convert to the internal parameterization and
range-check it strictly. -/
def get_surr_params_safe (r : SurrogateData) (x : ℚ) : Except Exc ℚ := do
  let x_internal := r.get_surr_params x
  let _ ← check_training_interval r x_internal true
  pure x_internal

/-- `_affine_mapper(x)`: map `x` to the fit's normalized domain. -/
def _affine_mapper (r : SurrogateData) (x : ℚ) : ℚ :=
  let x_min := r.fit_interval.1
  let x_max := r.fit_interval.2
  match r.affine_map with
  | .minus1_to_1 => 2 * (x - x_min) / (x_max - x_min) - 1
  | .zero_to_1 => (x - x_min) / (x_max - x_min)
  | .none_map => x

/-- `_norm_eval(x_0)`: `1` when norms are disabled, else the norm fit. -/
def _norm_eval (r : SurrogateData) (x_0 : ℚ) : ℚ :=
  if r.norms = false then 1 else r.norm_fit_func r.fitparams_norm x_0

/-- `_amp_eval(x_0)`: the whole-vector fast fit for `fast_spline_real`,
otherwise one scalar fit per coefficient row. -/
def _amp_eval (r : SurrogateData) (x_0 : ℚ) : List ℚ :=
  if r.fit_type_amp = "fast_spline_real" then r.amp_fit_func_vec r.fitparams_amp x_0
  else r.fitparams_amp.map (fun row => r.amp_fit_func row x_0)

/-- `_phase_eval(x_0)`: the whole-vector fast fit for `fast_spline_imag`,
otherwise one scalar fit per coefficient row. -/
def _phase_eval (r : SurrogateData) (x_0 : ℚ) : List ℚ :=
  if r.fit_type_phase = "fast_spline_imag" then r.phase_fit_func_vec r.fitparams_phase x_0
  else r.fitparams_phase.map (fun row => r.phase_fit_func row x_0)

/-- Result of `_eim_coeffs`: a complex EIM vector in `waveform_basis` mode,
or the `(amp, phase, norm)` triple in `amp_phase_basis` mode. -/
inductive EimResult where
  | eim (h_EIM : List Cq)
  | ampPhase (amp_eval phase_eval : List ℚ) (nrm_eval : ℚ)
deriving Repr

/-- `_eim_coeffs(x, surrogate_mode_type)` (the string argument is unused in
the source too; the branch is on `self.surrogate_mode_type`). -/
def _eim_coeffs (gt : Gwtools) (r : SurrogateData) (x : ℚ)
    (surrogate_mode_type : SurrogateModeType) : Except Exc EimResult :=
  let x_0 := _affine_mapper r x
  let amp_eval := _amp_eval r x_0
  let phase_eval := _phase_eval r x_0
  let nrm_eval := _norm_eval r x_0
  match r.surrogate_mode_type with
  | .waveform_basis =>
    let h_EIM :=
      if r.fit_type_amp = "fast_spline_real" then
        List.zipWith (fun a p => Cq.smul nrm_eval ⟨a, p⟩) amp_eval phase_eval
      else
        List.zipWith (fun a p => Cq.smul (nrm_eval * a) (gt.cis p)) amp_eval phase_eval
    Except.ok (EimResult.eim h_EIM)
  | .amp_phase_basis =>
    if r.fit_type_amp = "fast_spline_real" then
      Except.error (Exc.valueError ("invalid combination"))
    else
      Except.ok (EimResult.ampPhase amp_eval phase_eval nrm_eval)

/-- `_h_sur(x, samples)`: the dimensionless reconstruction.  The third
component of the result instruments whether a `resample_B*` routine was
invoked (`true` exactly on the `samples is not None` branch). -/
def _h_sur (gt : Gwtools) (r : SurrogateData) (x : ℚ) (samples : Option (List ℚ)) :
    Except Exc (List ℚ × List ℚ × Bool) :=
  match r.surrogate_mode_type with
  | .waveform_basis =>
    match _eim_coeffs gt r x SurrogateModeType.waveform_basis with
    | .error e => .error e
    | .ok (.ampPhase _ _ _) => .error (Exc.valueError ("invalid surrogate type"))
    | .ok (.eim h_EIM) =>
      match samples with
      | none =>
        let surrogate := matVecC r.B h_EIM
        .ok (surrogate.map Cq.re, surrogate.map Cq.im, false)
      | some s =>
        let surrogate := matVecC (resample_B r s) h_EIM
        .ok (surrogate.map Cq.re, surrogate.map Cq.im, true)
  | .amp_phase_basis =>
    match _eim_coeffs gt r x SurrogateModeType.amp_phase_basis with
    | .error e => .error e
    | .ok (.eim _) => .error (Exc.valueError ("invalid surrogate type"))
    | .ok (.ampPhase amp_eval phase_eval nrm_eval) =>
      match samples with
      | none =>
        let sur_A := matVecQ r.B_1 amp_eval
        let sur_P := matVecQ r.B_2 phase_eval
        let surrogate := List.zipWith (fun a p => Cq.smul (nrm_eval * a) (gt.cis p)) sur_A sur_P
        .ok (surrogate.map Cq.re, surrogate.map Cq.im, false)
      | some s =>
        let sur_A := matVecQ (resample_B_1 r s) amp_eval
        let sur_P := matVecQ (resample_B_2 r s) phase_eval
        let surrogate := List.zipWith (fun a p => Cq.smul (nrm_eval * a) (gt.cis p)) sur_A sur_P
        .ok (surrogate.map Cq.re, surrogate.map Cq.im, true)

/-- Index of the first maximum of a list (`np.argmax`). -/
def np_argmax_aux : List ℚ → ℕ → ℕ → ℚ → ℕ
  | [], _, best, _ => best
  | a :: rest, idx, best, bestVal =>
    if a > bestVal then np_argmax_aux rest (idx + 1) idx a
    else np_argmax_aux rest (idx + 1) best bestVal

/-- `np.argmax` (first index attaining the maximum; 0 on the empty list). -/
def np_argmax : List ℚ → ℕ
  | [] => 0
  | a :: rest => np_argmax_aux rest 1 0 a

/-- `phi_merger(h)`: the phase at the discrete amplitude peak. -/
def phi_merger (gt : Gwtools) (h : List Cq) : ℚ :=
  let ap := gt.amp_phase h
  ap.2.getD (np_argmax ap.1) 0

/-- `adjust_merger_phase(h, phiref)`: shift phase so the peak phase is `phiref`. -/
def adjust_merger_phase (gt : Gwtools) (h : List Cq) (phiref : ℚ) : List Cq :=
  modify_phase gt h (phiref - phi_merger gt h)

/-- `find_instant_freq(hp, hc, t, f_low)`: the starting frequency via
`gwtools`, absolute value taken (the source's convention hack); when
`f_low` is given and exceeded, `raise Warning(...)` — an uncaught exception,
so the call aborts. -/
def find_instant_freq (gt : Gwtools) (hp hc t : List ℚ) (f_low : Option ℚ) :
    Except Exc (Option ℚ) :=
  let f_instant := |gt.find_instant_freq hp hc t|
  match f_low with
  | none => Except.ok (some f_instant)
  | some fl =>
    if f_instant > fl then
      Except.error (Exc.warningExc ("starting frequency is " ++ toString f_instant))
    else Except.ok none

/-- `EvaluateSingleModeSurrogate.__call__(q, M, dist, phi_ref, f_low,
samples, samples_units)`.  Returns `(t, hp, hc)` plus the resampling
instrumentation flag from `_h_sur`. -/
def call_single (gt : Gwtools) (r : SurrogateData) (q : ℚ) (M dist : Option ℚ)
    (phi_ref : Option ℚ) (f_low : Option ℚ) (samples : Option (List ℚ))
    (samples_units : String) : Except Exc (List ℚ × List ℚ × List ℚ × Bool) := do
  if r.surrogate_units ≠ "dimensionless" then
    throw (Exc.valueError ("surrogate units is not supported"))
  if samples_units ≠ "dimensionless" ∧ samples_units ≠ "mks" then
    throw (Exc.valueError ("samples_units is not supported"))
  let amp0 : ℚ :=
    match M, dist with
    | some m, some d => ((m * MSUN_SI) / (d * PC_SI)) * (Gconst / cconst ^ 2)
    | _, _ => 1
  let t_scale : ℚ :=
    match M, dist with
    | some m, some _ => Msuninsec * m
    | _, _ => 1
  let t : List ℚ :=
    match samples with
    | some s => s
    | none => r.times
  let t := if samples_units = "dimensionless" then t.map (fun v => t_scale * v) else t
  let samples :=
    if samples_units = "mks" then samples.map (fun s => s.map (fun v => v / t_scale))
    else samples
  let x ← get_surr_params_safe r q
  let hphc ← _h_sur gt r x samples
  let hp := hphc.1
  let hc := hphc.2.1
  let resampled := hphc.2.2
  let hp2hc2 :=
    match phi_ref with
    | none => (hp, hc)
    | some phiref =>
      let h := adjust_merger_phase gt (List.zipWith (fun a b => Cq.mk a b) hp hc) phiref
      (h.map Cq.re, h.map Cq.im)
  let hp := hp2hc2.1.map (fun v => amp0 * v)
  let hc := hp2hc2.2.map (fun v => amp0 * v)
  match f_low with
  | none => pure (t, hp, hc, resampled)
  | some fl => do
    let _ ← find_instant_freq gt hp hc t (some fl)
    pure (t, hp, hc, resampled)

/-- The multi-mode surrogate state after a successful
`EvaluateSurrogate.__init__`: the ordered dictionary of single-mode
surrogates keyed by `(ell, m)` and the symmetry flag. -/
structure MultiSurrogate where
  single_mode_dict : List ((ℤ × ℤ) × SurrogateData)
  use_orbital_plane_symmetry : Bool

/-- The common time grid, `self.time_grid` (the first mode's `time()`). -/
def time_grid (ms : MultiSurrogate) : List ℚ :=
  match ms.single_mode_dict with
  | [] => []
  | p :: _ => p.2.times

/-- The consistency checks of `EvaluateSurrogate.__init__` (lines 866-899):
no modes is fatal (`IOError`); then every record is compared with the first
for equal time-grid *shape* (`time().shape`, i.e. length), equal
`fit_interval` (`np.max(np.abs(...)) != 0`) and identical parameterization
(function identity, modelled by `param_id`).  The source interleaves the
last two per key inside one loop; which of the two errors fires can differ
here when several records mismatch in different ways, but whether
construction is fatal cannot. -/
def multiSurrogateInit (modes : List ((ℤ × ℤ) × SurrogateData))
    (use_orbital_plane_symmetry : Bool) : Except Exc MultiSurrogate :=
  match modes with
  | [] => Except.error (Exc.ioError ("Modes not found. Mode subdirectories begins with l" ++ "#_m" ++ "#_"))
  | p0 :: _ =>
    if ∀ p ∈ modes, p.2.times.length = p0.2.times.length then
      if ∀ p ∈ modes, p.2.fit_interval = p0.2.fit_interval then
        if ∀ p ∈ modes, p.2.param_id = p0.2.param_id then
          Except.ok ⟨modes, use_orbital_plane_symmetry⟩
        else Except.error (Exc.valueError ("inconsistent single mode parameterizations"))
      else Except.error (Exc.valueError ("inconsistent single mode parameter grids"))
    else Except.error (Exc.valueError ("inconsistent single mode temporal grids"))

/-- `_extend_mode_list_minus_m(mode_list)`: append `(ell, -m)` for every
`m > 0` entry; any `m < 0` entry in the input is a fatal `ValueError`. -/
def _extend_mode_list_minus_m (mode_list : List (ℤ × ℤ)) : Except Exc (List (ℤ × ℤ)) :=
  if mode_list.any (fun p => decide (p.2 < 0)) then
    Except.error (Exc.valueError ("your list already has negative modes!"))
  else
    Except.ok (mode_list ++ (mode_list.filter (fun p => decide (0 < p.2))).map (fun p => (p.1, -p.2)))

/-- `all_model_modes(minus_m)`: the dictionary keys, optionally extended
with the negative-m counterparts. -/
def all_model_modes (ms : MultiSurrogate) (minus_m : Bool) : Except Exc (List (ℤ × ℤ)) :=
  let model_modes := ms.single_mode_dict.map (fun p => p.1)
  if minus_m then _extend_mode_list_minus_m model_modes else Except.ok model_modes

/-- The three input forms of `generate_mode_eval_list`: `ell=m=None`;
`ell=NUM, m=None`; parallel lists of `ell` and `m`. -/
inductive ModeArg where
  | noModes
  | ellMax (L : ℤ)
  | pairs (ell m : List ℤ)
deriving Repr

/-- `generate_mode_eval_list(ell, m, minus_m)`. -/
def generate_mode_eval_list (ms : MultiSurrogate) (arg : ModeArg) (minus_m : Bool) :
    Except Exc (List (ℤ × ℤ)) := do
  let modes_to_eval ←
    match arg with
    | .noModes => all_model_modes ms false
    | .ellMax L =>
      pure (((intRange 2 (L + 1)).map (fun L2 => (intRange 0 (L2 + 1)).map (fun emm => (L2, emm)))).flatten)
    | .pairs ell m => pure (ell.zip m)
  if minus_m then _extend_mode_list_minus_m modes_to_eval else pure modes_to_eval

/-- Insertion step for `sort_mode_list`. -/
def insertMode (a : ℤ × ℤ) : List (ℤ × ℤ) → List (ℤ × ℤ)
  | [] => [a]
  | b :: rest =>
    if a.1 < b.1 ∨ (a.1 = b.1 ∧ a.2 ≤ b.2) then a :: b :: rest else b :: insertMode a rest

/-- `sort_mode_list(mode_list)`: stable sort by `(ell, m)` ascending
(`sorted(..., key=itemgetter(0,1))`). -/
def sort_mode_list : List (ℤ × ℤ) → List (ℤ × ℤ)
  | [] => []
  | a :: rest => insertMode a (sort_mode_list rest)

/-- `evaluate_single_mode(...)`: dictionary lookup plus the single-mode
`__call__` with `phi_ref=None` (an absent key would be a Python `KeyError`;
callers guard availability first). -/
def evaluate_single_mode (gt : Gwtools) (ms : MultiSurrogate) (q : ℚ) (M dist : Option ℚ)
    (f_low : Option ℚ) (samples : Option (List ℚ)) (samples_units : String) (ell m : ℤ) :
    Except Exc (List ℚ × List ℚ × List ℚ × Bool) :=
  match ms.single_mode_dict.find? (fun p => p.1 == (ell, m)) with
  | some p => call_single gt p.2 q M dist none f_low samples samples_units
  | none => Except.error (Exc.keyError ("mode not loaded"))

/-- `_generate_minus_m_mode(hp_mode, hc_mode, ell, m)`:
`h(l,-m) = (-1)^l conj(h(l,m))`, i.e. `hp -> (-1)^l hp`, `hc -> -(-1)^l hc`. -/
def _generate_minus_m_mode (hp_mode hc_mode : List ℚ) (ell m : ℤ) :
    Except Exc (List ℚ × List ℚ) :=
  if m ≤ 0 then
    Except.error (Exc.valueError ("m must be nonnegative. m<0 will be generated for you from the m>0 mode."))
  else
    Except.ok (hp_mode.map (fun v => (-1 : ℚ) ^ ell * v),
               hc_mode.map (fun v => -(-1 : ℚ) ^ ell * v))

/-- `evaluate_single_mode_by_symmetry(...)`: evaluate `(ell, -m)` directly
and transform it by `_generate_minus_m_mode`. -/
def evaluate_single_mode_by_symmetry (gt : Gwtools) (ms : MultiSurrogate) (q : ℚ)
    (M dist : Option ℚ) (f_low : Option ℚ) (samples : Option (List ℚ))
    (samples_units : String) (ell m : ℤ) :
    Except Exc (List ℚ × List ℚ × List ℚ × Bool) := do
  if m < 0 then
    let res ← evaluate_single_mode gt ms q M dist f_low samples samples_units ell (-m)
    let hphc ← _generate_minus_m_mode res.2.1 res.2.2.1 ell (-m)
    pure (res.1, hphc.1, hphc.2, res.2.2.2)
  else
    throw (Exc.valueError ("m must be negative."))

/-- `evaluate_on_sphere(...)`: multiply by the spin-weight-(−2) spherical
harmonic when an angular position is given; `theta` without `phi` is fatal. -/
def evaluate_on_sphere (gt : Gwtools) (ell m : ℤ) (theta phi : Option ℚ)
    (hp_mode hc_mode : List ℚ) : Except Exc (List ℚ × List ℚ) :=
  match theta with
  | none => Except.ok (hp_mode, hc_mode)
  | some th =>
    match phi with
    | none => Except.error (Exc.valueError ("phi must have a value"))
    | some ph =>
      let sYlm_value := gt.sYlm (-2) ell m th ph
      let h := (List.zipWith (fun a b => Cq.mk a b) hp_mode hc_mode).map (fun z => sYlm_value * z)
      Except.ok (h.map Cq.re, h.map Cq.im)

/-- Output storage of the multi-mode evaluator: `np.zeros(n)` (vector) or
`np.zeros((n, k))` (matrix, stored here as its list of columns, since the
loop writes whole columns `hp_full[:,ii]`). -/
inductive OutArr where
  | vec (v : List ℚ)
  | mat (cols : List (List ℚ))
deriving DecidableEq, Repr

/-- `hp_full[:,ii] = col` on a matrix (no-op on a vector, which the loop
never does). -/
def OutArr.setCol : OutArr → ℕ → List ℚ → OutArr
  | .mat cols, ii, col => .mat (cols.set ii col)
  | .vec v, _, _ => .vec v

/-- `hp_full = hp_full + hp_mode` on a vector (summation branch; the
allocation for that branch is always a vector). -/
def OutArr.accum : OutArr → List ℚ → OutArr
  | .vec v, w => .vec (List.zipWith (· + ·) v w)
  | .mat cols, _ => .mat cols

/-- `_allocate_output_array(samples, num_modes, mode_sum)`: `num_modes = 1`
gives flat vectors, otherwise an `n × num_modes` matrix (the `mode_sum`
argument does not influence the shape in the source either). -/
def _allocate_output_array (ms : MultiSurrogate) (samples : Option (List ℚ))
    (num_modes : ℕ) (mode_sum : Bool) : OutArr × OutArr :=
  let sample_size :=
    match samples with
    | some s => s.length
    | none => (time_grid ms).length
  if num_modes = 1 then
    (OutArr.vec (List.replicate sample_size 0), OutArr.vec (List.replicate sample_size 0))
  else
    (OutArr.mat (List.replicate num_modes (List.replicate sample_size 0)),
     OutArr.mat (List.replicate num_modes (List.replicate sample_size 0)))

/-- Result of `EvaluateSurrogate.__call__`: `(t, hp, hc)` when summing,
`(modes, t, hp, hc)` otherwise. -/
inductive MultiResult where
  | summed (t hp hc : List ℚ)
  | perMode (modes : List (ℤ × ℤ)) (t : List ℚ) (hp hc : OutArr)
deriving DecidableEq, Repr

/-- The mode loop of `EvaluateSurrogate.__call__` (lines 963-1006): an
unavailable mode — neither modeled nor derivable with `fake_neg_modes` —
raises `Warning(...)`, aborting the evaluation. -/
def modeLoop (gt : Gwtools) (ms : MultiSurrogate) (q : ℚ) (M dist : Option ℚ)
    (theta phi z_rot f_low : Option ℚ) (samples : Option (List ℚ))
    (samples_units : String) (fake_neg_modes mode_sum : Bool) (k : ℕ)
    (modeled_modes : List (ℤ × ℤ)) :
    List (ℤ × ℤ) → ℕ → OutArr → OutArr → Option (List ℚ) →
    Except Exc (OutArr × OutArr × Option (List ℚ))
  | [], _, hp_full, hc_full, t_mode => Except.ok (hp_full, hc_full, t_mode)
  | (ell, m) :: rest, ii, hp_full, hc_full, t_mode => do
    let is_modeled := (ell, m) ∈ modeled_modes
    let neg_modeled := (ell, -m) ∈ modeled_modes
    if is_modeled ∨ (neg_modeled ∧ fake_neg_modes = true) then do
      let res ←
        if is_modeled then
          evaluate_single_mode gt ms q M dist f_low samples samples_units ell m
        else
          evaluate_single_mode_by_symmetry gt ms q M dist f_low samples samples_units ell m
      let t_m := res.1
      let hpm := res.2.1
      let hcm := res.2.2.1
      let hphcr :=
        match z_rot with
        | none => (hpm, hcm)
        | some z =>
          let h_tmp := modify_phase gt (List.zipWith (fun a b => Cq.mk a b) hpm hcm) (z * (m : ℚ))
          (h_tmp.map Cq.re, h_tmp.map Cq.im)
      let hphcs ← evaluate_on_sphere gt ell m theta phi hphcr.1 hphcr.2
      let hpm := hphcs.1
      let hcm := hphcs.2
      let acc :=
        if mode_sum then (hp_full.accum hpm, hc_full.accum hcm)
        else if k = 1 then (OutArr.vec hpm, OutArr.vec hcm)
        else (hp_full.setCol ii hpm, hc_full.setCol ii hcm)
      modeLoop gt ms q M dist theta phi z_rot f_low samples samples_units
        fake_neg_modes mode_sum k modeled_modes rest (ii + 1) acc.1 acc.2 (some t_m)
    else
      Except.error (Exc.warningExc ("Your mode (ell,m) = (" ++ toString ell ++ "," ++ toString m ++ ") is not available!"))

/-- `EvaluateSurrogate.__call__(q, M, dist, theta, phi, z_rot, f_low,
samples, samples_units, ell, m, mode_sum, fake_neg_modes)`. -/
def multiCall (gt : Gwtools) (ms : MultiSurrogate) (q : ℚ) (M dist : Option ℚ)
    (theta phi z_rot f_low : Option ℚ) (samples : Option (List ℚ))
    (samples_units : String) (arg : ModeArg) (mode_sum fake_neg_modes : Bool) :
    Except Exc MultiResult := do
  if ms.use_orbital_plane_symmetry = false ∧ fake_neg_modes = true then
    throw (Exc.valueError ("if use_orbital_plane_symmetry is not assumed, it is not possible to fake m<0 modes"))
  let modes_to_evaluate ← generate_mode_eval_list ms arg fake_neg_modes
  if mode_sum = true ∧ theta = none ∧ phi = none ∧ modes_to_evaluate.length ≠ 1 then
    throw (Exc.valueError ("Trying to sum modes without theta and phi is a strange idea"))
  let modes_to_evaluate := if mode_sum then modes_to_evaluate else sort_mode_list modes_to_evaluate
  let modeled_modes ← all_model_modes ms false
  let alloc :=
    if mode_sum then _allocate_output_array ms samples 1 mode_sum
    else _allocate_output_array ms samples modes_to_evaluate.length mode_sum
  let res ← modeLoop gt ms q M dist theta phi z_rot f_low samples samples_units
    fake_neg_modes mode_sum modes_to_evaluate.length modeled_modes
    modes_to_evaluate 0 alloc.1 alloc.2 none
  match res.2.2 with
  | none => throw (Exc.nameError ("t_mode"))
  | some t_mode =>
    if mode_sum then
      match res.1, res.2.1 with
      | .vec hp, .vec hc => pure (MultiResult.summed t_mode hp hc)
      | _, _ => throw (Exc.nameError ("unreachable"))
    else
      pure (MultiResult.perMode modes_to_evaluate t_mode res.1 res.2.1)

/-- Amplitude fit vector at physical parameter `x` (affine map then fits). -/
def amp_at (r : SurrogateData) (x : ℚ) : List ℚ := _amp_eval r (_affine_mapper r x)

/-- Phase fit vector at physical parameter `x`. -/
def phase_at (r : SurrogateData) (x : ℚ) : List ℚ := _phase_eval r (_affine_mapper r x)

/-- Norm fit value at physical parameter `x`. -/
def norm_at (r : SurrogateData) (x : ℚ) : ℚ := _norm_eval r (_affine_mapper r x)

/-- The spec's EIM vector for the "fast spline real" amplitude fit:
`norm * (amp + i*phase)` componentwise (§4.3). -/
def specEIMfast (nrm : ℚ) (amp phase : List ℚ) : List Cq :=
  (amp.zip phase).map (fun ap => ⟨nrm * ap.1, nrm * ap.2⟩)

/-- The spec's EIM vector for every other amplitude fit:
`norm * amp * exp(i*phase)` componentwise (§4.3). -/
def specEIMexp (gt : Gwtools) (nrm : ℚ) (amp phase : List ℚ) : List Cq :=
  (amp.zip phase).map (fun ap => Cq.smul (nrm * ap.1) (gt.cis ap.2))

/-- The spec's `amp_phase_basis` reconstruction
`h(t) = norm * A(t) * exp(i*Φ(t))` componentwise (§4.3). -/
def specAmpPhaseH (gt : Gwtools) (nrm : ℚ) (A P : List ℚ) : List Cq :=
  (A.zip P).map (fun ap => Cq.smul (nrm * ap.1) (gt.cis ap.2))

/-- Concrete external-primitive instance used by witnesses (an arbitrary
choice; the theorems hold for every choice). -/
def gtW : Gwtools where
  cis := fun _ => ⟨1, 0⟩
  find_instant_freq := fun _ _ _ => 0
  amp_phase := fun h => (h.map Cq.re, h.map Cq.im)
  sYlm := fun _ _ _ _ _ => ⟨1, 0⟩

/-- Concrete `waveform_basis` record used by witnesses: one reduced-basis
dimension, constant (coefficient-head) fits, `B = [[1],[2]]` over the native
grid `[0, 1]`, constant unit real spline per column. -/
def recW : SurrogateData where
  times := [0, 1]
  fit_interval := (0, 1)
  affine_map := AffineMapKind.none_map
  surrogate_mode_type := SurrogateModeType.waveform_basis
  surrogate_units := "dimensionless"
  fit_type_amp := "polynomial"
  fit_type_phase := "polynomial"
  fitparams_amp := [[1]]
  fitparams_phase := [[0]]
  fitparams_norm := [1]
  amp_fit_func := fun row _ => row.headD 0
  phase_fit_func := fun row _ => row.headD 0
  norm_fit_func := fun row _ => row.headD 0
  amp_fit_func_vec := fun _ _ => []
  phase_fit_func_vec := fun _ _ => []
  norms := false
  B := [[⟨1, 0⟩], [⟨2, 0⟩]]
  B_1 := []
  B_2 := []
  reB_spline_params := [fun _ => 1]
  imB_spline_params := [fun _ => 0]
  B1_spline_params := []
  B2_spline_params := []
  get_surr_params := fun x => x
  param_id := 0

/-- Multi-mode fixture: the single modeled mode `(2, 2)` with symmetry. -/
def msW : MultiSurrogate := ⟨[((2, 2), recW)], true⟩

/-- Record with a negative first native time sample (`times[0] = -1`),
for the near-boundary resampling claims. -/
def rec6 : SurrogateData :=
  { recW with times := [-1, 0, 1], B := [[⟨1, 0⟩], [⟨1, 0⟩], [⟨1, 0⟩]] }

/-- Record with positive first native time sample (`times[0] = 1`). -/
def recPos : SurrogateData := { recW with times := [1, 2] }

/-- C7 fixture: `recW` with one (constant-1) spline column in each of the
`B_1` and `B_2` bases, so the amp/phase resamplers have a column to zero. -/
def recC7 : SurrogateData :=
  { recW with B1_spline_params := [fun _ => 1], B2_spline_params := [fun _ => 1] }

/-- Three-sample record for the construction-check claims. -/
def recA : SurrogateData :=
  { recW with times := [0, 1, 2], B := [[⟨1, 0⟩], [⟨1, 0⟩], [⟨1, 0⟩]] }

/-- Same shape as `recA` but different time-sample *values*. -/
def recC9 : SurrogateData := { recA with times := [0, 1, 3] }

/-- External-primitive instance whose starting-frequency estimate is the
constant 1 (used to exhibit the fatal `f_low` check). -/
def gtC5 : Gwtools := { gtW with find_instant_freq := fun _ _ _ => 1 }

/-- The three fatal cross-mode consistency errors of
`EvaluateSurrogate.__init__`. -/
def cross_mode_error (e : Exc) : Prop :=
  e = Exc.valueError ("inconsistent single mode temporal grids") ∨
  e = Exc.valueError ("inconsistent single mode parameter grids") ∨
  e = Exc.valueError ("inconsistent single mode parameterizations")

/-- Whether `EvaluateSurrogate.__init__` succeeds on this mode dictionary. -/
def multiInitOk (modes : List ((ℤ × ℤ) × SurrogateData)) (sym : Bool) : Bool :=
  match multiSurrogateInit modes sym with
  | .ok _ => true
  | .error _ => false

/-- Multi-mode state whose construction disabled the orbital-plane symmetry. -/
def msBad : MultiSurrogate := ⟨[((2, 2), recW)], false⟩

/-- Number of output samples of a single-mode evaluation:
`samples` length if given, else the native grid length. -/
def nSamples (r : SurrogateData) (samples : Option (List ℚ)) : ℕ :=
  match samples with
  | some s => s.length
  | none => r.times.length

/-- Shape well-formedness of a record: the stored basis matrix has one row
per native time sample (true of every loaded surrogate by construction of
the data files; the loader is out of scope). -/
def recordWF (r : SurrogateData) : Prop :=
  (r.surrogate_mode_type = SurrogateModeType.waveform_basis →
    r.B.length = r.times.length) ∧
  (r.surrogate_mode_type = SurrogateModeType.amp_phase_basis →
    r.B_1.length = r.times.length ∧ r.B_2.length = r.times.length)

/-- Number of output samples of the multi-mode evaluator: `samples` length
if given, else the common time grid length. -/
def nGrid (ms : MultiSurrogate) (samples : Option (List ℚ)) : ℕ :=
  match samples with
  | some s => s.length
  | none => (time_grid ms).length

/-- Well-formedness of the loaded mode collection: every record is shape
well-formed and shares the common time-grid length (the latter is exactly
what `EvaluateSurrogate.__init__` checks). -/
def multiWF (ms : MultiSurrogate) : Prop :=
  ∀ p ∈ ms.single_mode_dict, recordWF p.2 ∧ p.2.times.length = (time_grid ms).length

/-- Shape invariant of the two output accumulators of the mode loop:
summation mode or a single requested mode keeps flat vectors of length `n`;
otherwise an `n x k` matrix (stored as `k` columns of length `n`). -/
def ShapeInv (mode_sum : Bool) (k n : ℕ) (o : OutArr) : Prop :=
  if mode_sum = true ∨ k = 1 then ∃ v, o = OutArr.vec v ∧ v.length = n
  else ∃ cols, o = OutArr.mat cols ∧ cols.length = k ∧ ∀ c ∈ cols, c.length = n

theorem zipWith_eq_map_zip {α β γ : Type} (f : α → β → γ) :
    ∀ (l1 : List α) (l2 : List β),
      List.zipWith f l1 l2 = (l1.zip l2).map (fun p => f p.1 p.2) := by
  intro l1
  induction l1 with
  | nil => intro l2; simp
  | cons a l ih => intro l2; cases l2 <;> simp [ih]

/-- C1: with `samples=None` and a `waveform_basis` record, `_h_sur` is the
exact matrix–vector product `B · EIM` of the basis matrix with the EIM
coefficient vector, split into real and imaginary parts, and the
resampling flag is `false`: no spline resampling routine runs on that
path. -/
theorem C1_native_eval_is_B_dot_EIM (gt : Gwtools) (r : SurrogateData) (x : ℚ)
    (hmode : r.surrogate_mode_type = SurrogateModeType.waveform_basis)
    (hx : r.fit_interval.1 ≤ x ∧ x ≤ r.fit_interval.2) :
    ∃ h_EIM : List Cq,
      _eim_coeffs gt r x SurrogateModeType.waveform_basis = .ok (.eim h_EIM) ∧
      _h_sur gt r x none =
        .ok ((matVecC r.B h_EIM).map Cq.re, (matVecC r.B h_EIM).map Cq.im, false) := by
  simp only [_h_sur, _eim_coeffs, hmode]
  exact ⟨_, rfl, rfl⟩

/-- C1 witness: concrete record evaluated at `x = 1/2`. -/
theorem C1_native_eval_is_B_dot_EIM_witness :
    ∃ h_EIM : List Cq,
      _eim_coeffs gtW recW (1/2) SurrogateModeType.waveform_basis = .ok (.eim h_EIM) ∧
      _h_sur gtW recW (1/2) none =
        .ok ((matVecC recW.B h_EIM).map Cq.re, (matVecC recW.B h_EIM).map Cq.im, false) :=
  C1_native_eval_is_B_dot_EIM gtW recW (1/2) (by norm_num [recW]) (by norm_num [recW])

/-- C2: with `samples=None` the reconstruction follows the basis-type
formulas of the spec: in `waveform_basis` mode `h = B · EIM` with
`EIM = norm*(amp + i*phase)` for the `fast_spline_real` amplitude fit and
`EIM = norm*amp*exp(i*phase)` otherwise; in `amp_phase_basis` mode
`h = norm * (B_1·amp) * exp(i*(B_2·phase))`; the real/imaginary parts of
`h` are returned as the two polarizations. -/
theorem C2_reconstruction_formula (gt : Gwtools) (r : SurrogateData) (x : ℚ)
    (hx : r.fit_interval.1 ≤ x ∧ x ≤ r.fit_interval.2) :
    (r.surrogate_mode_type = SurrogateModeType.waveform_basis →
      r.fit_type_amp = "fast_spline_real" →
      _h_sur gt r x none =
        .ok ((matVecC r.B (specEIMfast (norm_at r x) (amp_at r x) (phase_at r x))).map Cq.re,
             (matVecC r.B (specEIMfast (norm_at r x) (amp_at r x) (phase_at r x))).map Cq.im,
             false)) ∧
    (r.surrogate_mode_type = SurrogateModeType.waveform_basis →
      r.fit_type_amp ≠ "fast_spline_real" →
      _h_sur gt r x none =
        .ok ((matVecC r.B (specEIMexp gt (norm_at r x) (amp_at r x) (phase_at r x))).map Cq.re,
             (matVecC r.B (specEIMexp gt (norm_at r x) (amp_at r x) (phase_at r x))).map Cq.im,
             false)) ∧
    (r.surrogate_mode_type = SurrogateModeType.amp_phase_basis →
      r.fit_type_amp ≠ "fast_spline_real" →
      _h_sur gt r x none =
        .ok ((specAmpPhaseH gt (norm_at r x)
                (matVecQ r.B_1 (amp_at r x)) (matVecQ r.B_2 (phase_at r x))).map Cq.re,
             (specAmpPhaseH gt (norm_at r x)
                (matVecQ r.B_1 (amp_at r x)) (matVecQ r.B_2 (phase_at r x))).map Cq.im,
             false)) := by
  refine ⟨?_, ?_, ?_⟩
  · intro hmode hfast
    simp only [_h_sur, _eim_coeffs, hmode, if_pos hfast, specEIMfast, amp_at, phase_at,
      norm_at, zipWith_eq_map_zip, Cq.smul]
  · intro hmode hfast
    simp only [_h_sur, _eim_coeffs, hmode, if_neg hfast, specEIMexp, amp_at, phase_at,
      norm_at, zipWith_eq_map_zip]
  · intro hmode hfast
    simp only [_h_sur, _eim_coeffs, hmode, if_neg hfast, specAmpPhaseH, amp_at, phase_at,
      norm_at, zipWith_eq_map_zip]

/-- C2 witness: the concrete record (non-fast `waveform_basis` branch). -/
theorem C2_reconstruction_formula_witness :
    _h_sur gtW recW (1/2) none =
      .ok ((matVecC recW.B
              (specEIMexp gtW (norm_at recW (1/2)) (amp_at recW (1/2)) (phase_at recW (1/2)))).map Cq.re,
           (matVecC recW.B
              (specEIMexp gtW (norm_at recW (1/2)) (amp_at recW (1/2)) (phase_at recW (1/2)))).map Cq.im,
           false) :=
  (C2_reconstruction_formula gtW recW (1/2) (by norm_num [recW])).2.1 rfl (by decide)

/-- C3: a parameter outside `fit_interval` raises the out-of-range error
(realized as `ValueError('Surrogate not trained at requested parameter
value')`) under strict checking, and under lenient checking only emits a
warning and returns normally; a parameter inside the interval (endpoints
inclusive) yields no error and no warning. -/
theorem C3_training_interval_check (r : SurrogateData) (x : ℚ) :
    ((x < r.fit_interval.1 ∨ x > r.fit_interval.2) →
      check_training_interval r x true =
        .error (Exc.valueError ("Surrogate not trained at requested parameter value")) ∧
      check_training_interval r x false =
        .ok [("Warning: Surrogate not trained at requested parameter value")]) ∧
    ((r.fit_interval.1 ≤ x ∧ x ≤ r.fit_interval.2) →
      ∀ strong_checking : Bool, check_training_interval r x strong_checking = .ok []) := by
  constructor
  · intro hout
    constructor <;> simp [check_training_interval, hout]
  · intro hin strong_checking
    have hno : ¬(x < r.fit_interval.1 ∨ x > r.fit_interval.2) := by
      push_neg
      exact hin
    simp [check_training_interval, hno]

/-- C3 witness: `x = 2` is outside `recW`'s interval `[0, 1]`, `x = 1/2`
inside. -/
theorem C3_training_interval_check_witness :
    (check_training_interval recW 2 true =
       .error (Exc.valueError ("Surrogate not trained at requested parameter value")) ∧
     check_training_interval recW 2 false =
       .ok [("Warning: Surrogate not trained at requested parameter value")]) ∧
    check_training_interval recW (1/2) true = .ok [] :=
  ⟨(C3_training_interval_check recW 2).1 (by norm_num [recW]),
   (C3_training_interval_check recW (1/2)).2 (by norm_num [recW]) true⟩

/-- C4: for a modeled `(ell, m)` with `m > 0` whose direct evaluation
returns `(t, hp, hc)`, the `(ell, -m)` mode derived through the
orbital-plane-symmetry path is exactly `(t, (-1)^ell * hp, -(-1)^ell * hc)`
at every shared time sample: the time array, and the resampling
instrumentation flag `b`, are those of the single direct `(ell, m)`
evaluation — the derivation itself only rescales pointwise and performs no
further resampling. -/
theorem C4_minus_m_symmetry (gt : Gwtools) (ms : MultiSurrogate) (q : ℚ)
    (M dist f_low : Option ℚ) (samples : Option (List ℚ)) (samples_units : String)
    (ell m : ℤ) (hm : 0 < m) (t hp hc : List ℚ) (b : Bool)
    (heval : evaluate_single_mode gt ms q M dist f_low samples samples_units ell m =
      .ok (t, hp, hc, b)) :
    evaluate_single_mode_by_symmetry gt ms q M dist f_low samples samples_units ell (-m) =
      .ok (t, hp.map (fun v => (-1 : ℚ) ^ ell * v),
           hc.map (fun v => -(-1 : ℚ) ^ ell * v), b) := by
  have hneg : -m < 0 := neg_lt_zero.mpr hm
  have hnotle : ¬ m ≤ 0 := not_le.mpr hm
  simp only [evaluate_single_mode_by_symmetry, if_pos hneg, neg_neg, heval,
    _generate_minus_m_mode, if_neg hnotle, Except.bind]
  rfl

/-- C4 witness: `(2, -2)` derived from the concrete `(2, 2)` evaluation. -/
theorem C4_minus_m_symmetry_witness :
    evaluate_single_mode_by_symmetry gtW msW (1/2) none none none none "dimensionless" 2 (-2) =
      .ok ([0, 1], [1, 2].map (fun v => (-1 : ℚ) ^ (2 : ℤ) * v),
           [0, 0].map (fun v => -(-1 : ℚ) ^ (2 : ℤ) * v), false) :=
  C4_minus_m_symmetry gtW msW (1/2) none none none none "dimensionless" 2 2 (by norm_num)
    [0, 1] [1, 2] [0, 0] false
    (by simp [evaluate_single_mode, msW, List.find?, call_single, get_surr_params_safe,
      check_training_interval, _h_sur, _eim_coeffs, _affine_mapper, _amp_eval, _phase_eval,
      _norm_eval, matVecC, dotC, recW, gtW, Except.bind, Except.pure,
      Except.instMonad] <;> norm_num)

/-- C5 counterexample: with `f_low = 0` and a starting-frequency estimate
of 1, the call does NOT return `(t, h+, h×)`: the `raise Warning(...)` in
`find_instant_freq` is an uncaught exception and aborts the call, contrary
to the claim that the signal is non-fatal and a value is still returned. -/
theorem C5_raise_is_fatal_counterexample :
    call_single gtC5 recW (1/2) none none none (some 0) none "dimensionless" =
      .error (Exc.warningExc ("starting frequency is " ++ toString (1 : ℚ))) := by
  simp [call_single, get_surr_params_safe, check_training_interval, _h_sur, _eim_coeffs,
    _affine_mapper, _amp_eval, _phase_eval, _norm_eval, matVecC, dotC, recW, gtC5, gtW,
    find_instant_freq, Except.bind, Except.pure, Except.instMonad]
  norm_num

/-- C5 (amended): the `f_low` check is fatal, not a non-fatal warning.
A call with `f_low` given returns a value only when the computed
instantaneous starting frequency does not exceed `f_low`; and whenever the
same evaluation (with `f_low=None`) would return `(t, hp, hc)` with
starting frequency exceeding `fl`, the call with `f_low=fl` instead raises
the Warning-class exception and returns nothing. -/
theorem C5_flow_check_aborts (gt : Gwtools) (r : SurrogateData) (q : ℚ)
    (M dist phi_ref : Option ℚ) (samples : Option (List ℚ)) (samples_units : String)
    (fl : ℚ) (t hp hc : List ℚ) (b : Bool) :
    (call_single gt r q M dist phi_ref (some fl) samples samples_units =
        .ok (t, hp, hc, b) → |gt.find_instant_freq hp hc t| ≤ fl) ∧
    (call_single gt r q M dist phi_ref none samples samples_units = .ok (t, hp, hc, b) →
      |gt.find_instant_freq hp hc t| > fl →
      call_single gt r q M dist phi_ref (some fl) samples samples_units =
        .error (Exc.warningExc ("starting frequency is " ++
          toString (|gt.find_instant_freq hp hc t|)))) := by
  constructor
  · intro hok
    simp only [call_single, find_instant_freq, Except.bind, Except.pure,
      Except.instMonad] at hok
    repeat' split at hok
    all_goals simp_all [ite_eq_iff]
  · intro hnone hfreq
    simp only [call_single, find_instant_freq, Except.bind, Except.pure,
      Except.instMonad] at hnone ⊢
    repeat' split at hnone
    all_goals simp_all [ite_eq_iff]

/-- C5 witness: a concrete call with `f_low = 1` that returns a value; the
theorem bounds its starting frequency. -/

theorem C5_flow_check_aborts_witness :
    |gtW.find_instant_freq [1, 2] [0, 0] [0, 1]| ≤ 1 :=
  (C5_flow_check_aborts gtW recW (1/2) none none none none "dimensionless" 1
      [0, 1] [1, 2] [0, 0] false).1
    (by simp [call_single, get_surr_params_safe, check_training_interval, _h_sur,
      _eim_coeffs, _affine_mapper, _amp_eval, _phase_eval, _norm_eval, matVecC, dotC,
      recW, gtW, find_instant_freq, Except.bind, Except.pure, Except.instMonad] ; norm_num)

/-- `splev` with `ext=0` is the plain spline evaluation everywhere. -/
theorem splev_ext_zero (x : ℚ) (tck : ℚ → ℚ) (t_lo t_hi : ℚ) :
    splev x tck t_lo t_hi 0 = tck x := by
  unfold splev
  split <;> simp

/-- `splev` with `ext=1` returns 0 outside the trained interval. -/
theorem splev_ext_one_out (x : ℚ) (tck : ℚ → ℚ) (t_lo t_hi : ℚ)
    (hout : x < t_lo ∨ t_hi < x) :
    splev x tck t_lo t_hi 1 = 0 := by
  have hni : ¬(t_lo ≤ x ∧ x ≤ t_hi) := by
    rcases hout with h | h
    · exact fun hc => absurd hc.1 (not_le.mpr h)
    · exact fun hc => absurd hc.2 (not_le.mpr h)
  simp [splev, hni]

/-- An out-of-interval row evaluated with `ext=1` is the zero row. -/
theorem resample_B_row_out (r : SurrogateData) (t : ℚ)
    (hout : t < tmin r ∨ tmax r < t) :
    resample_B_row r 1 t =
      (r.reB_spline_params.zip r.imB_spline_params).map (fun _ => Cq.mk 0 0) := by
  simp [resample_B_row, splev_ext_one_out t _ _ _ hout]

/-- An out-of-interval `B_1` row is the zero row. -/
theorem resample_B1_row_out (r : SurrogateData) (t : ℚ)
    (hout : t < tmin r ∨ tmax r < t) :
    resample_B1_row r t = r.B1_spline_params.map (fun _ => (0 : ℚ)) := by
  simp [resample_B1_row, splev_ext_one_out t _ _ _ hout]

/-- An out-of-interval `B_2` row is the zero row. -/
theorem resample_B2_row_out (r : SurrogateData) (t : ℚ)
    (hout : t < tmin r ∨ tmax r < t) :
    resample_B2_row r t = r.B2_spline_params.map (fun _ => (0 : ℚ)) := by
  simp [resample_B2_row, splev_ext_one_out t _ _ _ hout]

/-- C6 counterexample: for a record whose native grid starts at
`times[0] = -1` (the generic case: surrogate grids start at negative
times), a first query time within relative tolerance `1e-12` of `times[0]`
but just outside the interval is NOT recomputed: the code's test
`|samples[0] - t0| < t0 * 1e-12` has a negative right-hand side, so the
first returned row is the `ext=1` zero row, not the spline value
(here the column spline is constantly 1). -/
theorem C6_negative_t0_counterexample :
    |((-1 : ℚ) - 1/10^13) - tmin rec6| < |tmin rec6| * (1/10^12) ∧
    (resample_B rec6 [-1 - 1/10^13, 0]).headD [] ≠
      [Cq.mk ((rec6.reB_spline_params.headD id) (-1 - 1/10^13))
             ((rec6.imB_spline_params.headD id) (-1 - 1/10^13))] := by
  constructor
  · norm_num [tmin, rec6, recW, abs_of_pos]
  · have h1 : ¬(|(-1 - 1/10^13 : ℚ) - tmin rec6| < tmin rec6 * (1/10^12) ∨
        (tmin rec6 = 0 ∧ |(-1 - 1/10^13 : ℚ) - tmin rec6| < 1/10^12)) := by
      refine not_or.mpr ⟨?_, ?_⟩
      · intro h
        have hneg : tmin rec6 * (1/10^12 : ℚ) < 0 := by norm_num [tmin, rec6, recW]
        exact absurd (lt_of_le_of_lt (abs_nonneg _) h) (not_lt.mpr (le_of_lt hneg))
      · rintro ⟨h0, _⟩
        norm_num [tmin, rec6, recW] at h0
    simp only [resample_B, if_neg h1]
    have hrow := resample_B_row_out rec6 (-1 - 1/10^13)
      (Or.inl (by norm_num [tmin, rec6, recW]))
    simp only [List.map_cons, List.tail_cons, List.headD_cons]
    rw [hrow]
    simp [rec6, recW]

/-- C6 (amended): the near-boundary first-row correction behaves as claimed
when the native first sample is nonnegative: if `times[0] > 0` and the
first query time is within relative tolerance `1e-12` of it, or
`times[0] = 0` and the first query time is within absolute `1e-12`, the
first returned row is the plain (extrapolation-allowed, `ext=0`) spline
value of every column at that time — not the silently zeroed `ext=1`
value.  For a negative `times[0]` the correction never fires
(counterexample above). -/
theorem C6_first_row_correction (r : SurrogateData) (s0 : ℚ) (rest : List ℚ)
    (hcond : (0 < tmin r ∧ |s0 - tmin r| < tmin r * (1/10^12)) ∨
             (tmin r = 0 ∧ |s0| < 1/10^12)) :
    (resample_B r (s0 :: rest)).headD [] =
      (r.reB_spline_params.zip r.imB_spline_params).map
        (fun s => Cq.mk (s.1 s0) (s.2 s0)) := by
  have hcode : |s0 - tmin r| < tmin r * (1/10^12) ∨
      (tmin r = 0 ∧ |s0 - tmin r| < 1/10^12) := by
    rcases hcond with ⟨_, h1⟩ | ⟨h0, h1⟩
    · exact .inl h1
    · right
      refine ⟨h0, ?_⟩
      rw [h0]
      simpa using h1
  simp only [resample_B, if_pos hcode]
  simp [resample_B_row, splev_ext_zero]

/-- C6 witness: record with `times[0] = 1`, first query `1 - 1e-13`. -/
theorem C6_first_row_correction_witness :
    (resample_B recPos [1 - 1/10^13]).headD [] =
      (recPos.reB_spline_params.zip recPos.imB_spline_params).map
        (fun s => Cq.mk (s.1 (1 - 1/10^13)) (s.2 (1 - 1/10^13))) :=
  C6_first_row_correction recPos (1 - 1/10^13) []
    (.inl ⟨by norm_num [tmin, recPos, recW], by norm_num [tmin, recPos, recW, abs_of_pos]⟩)

/-- C7 counterexample: the query time 2 lies beyond the native interval
`[0, 1]` of `recW` and beyond the near-boundary tolerance; the returned
row is the zero row, while the boundary-clamped value of the (constant-1)
column spline is 1 — the code does NOT clamp at the boundary value. -/
theorem C7_zero_not_clamp_counterexample :
    (tmax recW < 2 ∧
      ¬(|(2 : ℚ) - tmin recW| < tmin recW * (1/10^12) ∨
        (tmin recW = 0 ∧ |(2 : ℚ) - tmin recW| < 1/10^12))) ∧
    (resample_B recW [2]).headD [] = [Cq.mk 0 0] ∧
    [Cq.mk 0 0] ≠ [Cq.mk ((recW.reB_spline_params.headD id) (tmax recW))
                         ((recW.imB_spline_params.headD id) (tmax recW))] := by
  refine ⟨⟨by norm_num [tmax, recW], by norm_num [tmin, recW, abs_of_pos]⟩, ?_, ?_⟩
  · have h1 : ¬(|(2 : ℚ) - tmin recW| < tmin recW * (1/10^12) ∨
        (tmin recW = 0 ∧ |(2 : ℚ) - tmin recW| < 1/10^12)) := by
      norm_num [tmin, recW, abs_of_pos]
    simp only [resample_B, if_neg h1]
    have hrow := resample_B_row_out recW 2 (Or.inr (by norm_num [tmax, recW]))
    simp only [List.map_cons, List.tail_cons, List.headD_cons]
    rw [hrow]
    simp [recW]
  · simp [recW, tmax]

/-- C7 (amended): every query time strictly outside the native interval
produces, for every basis column of all three resamplers, the value 0
(scipy `ext=1`), not a boundary-clamped and not a polynomially
extrapolated value.  For `resample_B` the sole exception is a first query
time caught by the near-boundary correction (recomputed with `ext=0`);
for `resample_B_1` and `resample_B_2` even the corrected first row is
recomputed with `ext=1`, so their rows are zero unconditionally. -/
theorem C7_out_of_interval_zero (r : SurrogateData) (samples : List ℚ) (i : ℕ) (x : ℚ)
    (hx : samples.get? i = some x)
    (hout : x < tmin r ∨ tmax r < x) :
    ((i = 0 → ¬(|x - tmin r| < tmin r * (1/10^12) ∨
        (tmin r = 0 ∧ |x - tmin r| < 1/10^12))) →
      (resample_B r samples).get? i =
        some ((r.reB_spline_params.zip r.imB_spline_params).map (fun _ => Cq.mk 0 0))) ∧
    (resample_B_1 r samples).get? i =
      some (r.B1_spline_params.map (fun _ => (0 : ℚ))) ∧
    (resample_B_2 r samples).get? i =
      some (r.B2_spline_params.map (fun _ => (0 : ℚ))) := by
  refine ⟨fun hnc => ?_, ?_, ?_⟩
  · cases samples with
    | nil => simp at hx
    | cons s0 rest =>
      simp only [resample_B]
      by_cases hc : |s0 - tmin r| < tmin r * (1/10^12) ∨
          (tmin r = 0 ∧ |s0 - tmin r| < 1/10^12)
      · rw [if_pos hc]
        cases i with
        | zero =>
          exfalso
          have hsx : s0 = x := by simpa using hx
          exact hnc rfl (hsx ▸ hc)
        | succ j =>
          have hxr : rest.get? j = some x := by simpa using hx
          simp only [List.map_cons, List.tail_cons, List.get?_cons_succ]
          rw [List.get?_map, hxr]
          simp [resample_B_row_out r x hout]
      · rw [if_neg hc]
        rw [List.get?_map, hx]
        simp [resample_B_row_out r x hout]
  · cases samples with
    | nil => simp at hx
    | cons s0 rest =>
      simp only [resample_B_1]
      split
      · cases i with
        | zero =>
          have hsx : s0 = x := by simpa using hx
          simp only [List.get?_cons_zero]
          rw [hsx, resample_B1_row_out r x hout]
        | succ j =>
          have hxr : rest.get? j = some x := by simpa using hx
          simp only [List.map_cons, List.tail_cons, List.get?_cons_succ]
          rw [List.get?_map, hxr]
          simp [resample_B1_row_out r x hout]
      · rw [List.get?_map, hx]
        simp [resample_B1_row_out r x hout]
  · cases samples with
    | nil => simp at hx
    | cons s0 rest =>
      simp only [resample_B_2]
      split
      · cases i with
        | zero =>
          have hsx : s0 = x := by simpa using hx
          simp only [List.get?_cons_zero]
          rw [hsx, resample_B2_row_out r x hout]
        | succ j =>
          have hxr : rest.get? j = some x := by simpa using hx
          simp only [List.map_cons, List.tail_cons, List.get?_cons_succ]
          rw [List.get?_map, hxr]
          simp [resample_B2_row_out r x hout]
      · rw [List.get?_map, hx]
        simp [resample_B2_row_out r x hout]

/-- C7 witness: `recC7`, query `[2]` (outside `[0, 1]`), index 0: all
three resamplers return the zero row over their columns. -/
theorem C7_out_of_interval_zero_witness :
    ((0 = 0 → ¬(|(2 : ℚ) - tmin recC7| < tmin recC7 * (1/10^12) ∨
        (tmin recC7 = 0 ∧ |(2 : ℚ) - tmin recC7| < 1/10^12))) →
      (resample_B recC7 [2]).get? 0 =
        some ((recC7.reB_spline_params.zip recC7.imB_spline_params).map
          (fun _ => Cq.mk 0 0))) ∧
    (resample_B_1 recC7 [2]).get? 0 =
      some (recC7.B1_spline_params.map (fun _ => (0 : ℚ))) ∧
    (resample_B_2 recC7 [2]).get? 0 =
      some (recC7.B2_spline_params.map (fun _ => (0 : ℚ))) :=
  C7_out_of_interval_zero recC7 [2] 0 2 (by simp)
    (by right; norm_num [tmax, recC7, recW])

theorem mem_intRange {a b x : ℤ} : x ∈ intRange a b ↔ a ≤ x ∧ x < b := by
  constructor
  · intro hx
    obtain ⟨i, hi, rfl⟩ := List.mem_map.mp hx
    rw [List.mem_range] at hi
    omega
  · intro h
    exact List.mem_map.mpr ⟨(x - a).toNat, List.mem_range.mpr (by omega), by omega⟩

/-- Membership in the `ell=NUM` mode enumeration of
`generate_mode_eval_list` (option 2, before any negative-m extension). -/
theorem mem_ellMax_list {L l m : ℤ} :
    (l, m) ∈ ((intRange 2 (L + 1)).map
        (fun L2 => (intRange 0 (L2 + 1)).map (fun emm => (L2, emm)))).flatten ↔
      2 ≤ l ∧ l ≤ L ∧ 0 ≤ m ∧ m ≤ l := by
  simp only [List.mem_flatten, List.mem_map]
  constructor
  · rintro ⟨_, ⟨L2, hL2, rfl⟩, hmem⟩
    rcases List.mem_map.mp hmem with ⟨emm, hemm, heq⟩
    rcases Prod.mk.injEq .. ▸ heq with ⟨rfl, rfl⟩
    rw [mem_intRange] at hL2 hemm
    omega
  · intro h
    refine ⟨_, ⟨l, mem_intRange.mpr ⟨h.1, by omega⟩, rfl⟩, ?_⟩
    exact List.mem_map.mpr ⟨m, mem_intRange.mpr ⟨h.2.2.1, by omega⟩, rfl⟩

theorem mem_insertMode {a b : ℤ × ℤ} {l : List (ℤ × ℤ)} :
    b ∈ insertMode a l ↔ b = a ∨ b ∈ l := by
  induction l with
  | nil => simp [insertMode]
  | cons c rest ih =>
    simp only [insertMode]
    split
    · simp
    · simp [ih]
      tauto

theorem mem_sort_mode_list {a : ℤ × ℤ} {l : List (ℤ × ℤ)} :
    a ∈ sort_mode_list l ↔ a ∈ l := by
  induction l with
  | nil => simp [sort_mode_list]
  | cons b rest ih => simp [sort_mode_list, mem_insertMode, ih]

/-- If the mode loop returns, every visited mode was available: modeled
directly, or negative-m derivable with `fake_neg_modes`. -/
theorem modeLoop_ok_all_available (gt : Gwtools) (ms : MultiSurrogate) (q : ℚ)
    (M dist theta phi z_rot f_low : Option ℚ) (samples : Option (List ℚ))
    (samples_units : String) (fake_neg_modes mode_sum : Bool) (k : ℕ)
    (modeled_modes : List (ℤ × ℤ)) :
    ∀ (lst : List (ℤ × ℤ)) (ii : ℕ) (hp_full hc_full : OutArr)
      (t_mode : Option (List ℚ)) (out : OutArr × OutArr × Option (List ℚ)),
      modeLoop gt ms q M dist theta phi z_rot f_low samples samples_units
        fake_neg_modes mode_sum k modeled_modes lst ii hp_full hc_full t_mode = .ok out →
      ∀ p ∈ lst, p ∈ modeled_modes ∨ ((p.1, -p.2) ∈ modeled_modes ∧ fake_neg_modes = true) := by
  intro lst
  induction lst with
  | nil => intro ii hp hc t out hok p hp'; simp at hp'
  | cons p0 rest ih =>
    intro ii hp hc t out hok p' hp'
    obtain ⟨ell, m⟩ := p0
    simp only [modeLoop, Except.bind, Except.pure, Except.instMonad] at hok
    by_cases hav : ((ell, m) ∈ modeled_modes ∨ ((ell, -m) ∈ modeled_modes ∧ fake_neg_modes = true))
    · rw [if_pos hav] at hok
      rcases List.mem_cons.mp hp' with h | hmem
      · rw [h]
        exact hav
      · repeat' split at hok
        all_goals try exact ih _ _ _ _ out hok p' hmem
        all_goals exact absurd hok (by simp)
    · rw [if_neg hav] at hok
      exact absurd hok (by simp)

/-- C8 (amended): given a single maximum `ell`, the generated evaluation
list (option 2, before negative-m extension) is exactly all `(l, m)` with
`2 ≤ l ≤ ellmax` and `0 ≤ m ≤ l`; but a requested entry that is neither
modeled nor derivable by symmetry is NOT treated as a zero contribution:
the evaluation loop raises `Warning('Your mode ... is not available!')`
and the multi-mode call aborts without returning. -/
theorem C8_mode_list_and_abort (ms : MultiSurrogate) (L : ℤ) :
    (∃ lst, generate_mode_eval_list ms (ModeArg.ellMax L) false = .ok lst ∧
      ∀ l m : ℤ, ((l, m) ∈ lst ↔ 2 ≤ l ∧ l ≤ L ∧ 0 ≤ m ∧ m ≤ l)) ∧
    (∀ (gt : Gwtools) (q : ℚ) (M dist theta phi z_rot f_low : Option ℚ)
      (samples : Option (List ℚ)) (samples_units : String) (mode_sum fake : Bool)
      (out : MultiResult) (lst : List (ℤ × ℤ)),
      generate_mode_eval_list ms (ModeArg.ellMax L) fake = .ok lst →
      (∃ p ∈ lst, ¬(p ∈ ms.single_mode_dict.map (fun pr => pr.1) ∨
        ((p.1, -p.2) ∈ ms.single_mode_dict.map (fun pr => pr.1) ∧ fake = true))) →
      multiCall gt ms q M dist theta phi z_rot f_low samples samples_units
        (ModeArg.ellMax L) mode_sum fake ≠ .ok out) := by
  constructor
  · refine ⟨_, rfl, ?_⟩
    intro l m
    exact mem_ellMax_list
  · intro gt q M dist theta phi z_rot f_low samples samples_units mode_sum fake out lst
      hgen hbad hok
    simp only [multiCall, hgen, all_model_modes, Except.bind, Except.pure,
      Except.instMonad, Bool.false_eq_true, if_false, ite_false] at hok
    repeat' split at hok
    all_goals try exact Except.noConfusion hok
    all_goals obtain ⟨p, hpl, hnp⟩ := hbad
    all_goals exact hnp (modeLoop_ok_all_available gt ms q M dist theta phi z_rot f_low
      samples samples_units fake mode_sum _ _ _ _ _ _ _ _ (by assumption) p
      (by first
        | exact hpl
        | exact mem_sort_mode_list.mpr hpl
        | (by_cases hms : mode_sum = true
           · rw [if_pos hms]
             exact hpl
           · rw [if_neg hms]
             exact mem_sort_mode_list.mpr hpl)))

/-- C8 counterexample: with only `(2, 2)` modeled, `ellmax = 2`,
`mode_sum=False`, `fake_neg_modes=True`, the sorted evaluation list reaches
the unmodelled `(2, -1)` (after successfully deriving `(2, -2)`) and the
call raises `Warning(...)` instead of treating it as zero and completing. -/
theorem C8_unavailable_raises_counterexample :
    multiCall gtW msW (1/2) none none none none none none none "dimensionless"
        (ModeArg.ellMax 2) false true =
      .error (Exc.warningExc ("Your mode (ell,m) = (2,-1) is not available!")) := by
  have hgen : generate_mode_eval_list msW (ModeArg.ellMax 2) true =
      .ok [(2, 0), (2, 1), (2, 2), (2, -1), (2, -2)] := by decide
  have hsort : sort_mode_list [(2, 0), (2, 1), (2, 2), (2, -1), (2, -2)] =
      [(2, -2), (2, -1), (2, 0), (2, 1), (2, 2)] := by decide
  simp only [multiCall, hgen, hsort, all_model_modes, Except.bind, Except.pure,
    Except.instMonad]
  simp [modeLoop, _allocate_output_array, time_grid, msW,
    evaluate_single_mode, evaluate_single_mode_by_symmetry,
    _generate_minus_m_mode, evaluate_on_sphere, call_single, get_surr_params_safe,
    check_training_interval, _h_sur, _eim_coeffs, _affine_mapper, _amp_eval, _phase_eval,
    _norm_eval, matVecC, dotC, recW, gtW, List.find?, Except.bind, Except.pure,
    Except.instMonad]
  norm_num
  decide

/-- C8 witness: the mode-list characterization at `L = 2` for the concrete
surrogate, and abortion of a concrete call containing the unmodelled
`(2, 0)`. -/
theorem C8_mode_list_and_abort_witness :
    (∃ lst, generate_mode_eval_list msW (ModeArg.ellMax 2) false = .ok lst ∧
      ∀ l m : ℤ, ((l, m) ∈ lst ↔ 2 ≤ l ∧ l ≤ 2 ∧ 0 ≤ m ∧ m ≤ l)) ∧
    multiCall gtW msW (1/2) none none none none none none none "dimensionless"
        (ModeArg.ellMax 2) false true ≠ .ok (MultiResult.summed [] [] []) :=
  ⟨(C8_mode_list_and_abort msW 2).1,
   (C8_mode_list_and_abort msW 2).2 gtW (1/2) none none none none none none none
     "dimensionless" false true (MultiResult.summed [] [] [])
     [(2, 0), (2, 1), (2, 2), (2, -1), (2, -2)] (by decide)
     ⟨(2, 0), by decide, by decide⟩⟩

theorem not_cross_unfold {e : Exc} (h : ¬ cross_mode_error e) :
    ¬e = Exc.valueError ("inconsistent single mode temporal grids") ∧
    ¬e = Exc.valueError ("inconsistent single mode parameter grids") ∧
    ¬e = Exc.valueError ("inconsistent single mode parameterizations") := by
  simp only [cross_mode_error, not_or] at h
  exact h

theorem check_training_interval_not_cross (r : SurrogateData) (x : ℚ) (strong : Bool)
    (e : Exc) (he : check_training_interval r x strong = .error e) :
    ¬ cross_mode_error e := by
  unfold check_training_interval at he
  by_cases hout : (x < r.fit_interval.1 ∨ x > r.fit_interval.2)
  · rw [if_pos hout] at he
    cases strong with
    | true =>
      simp at he
      subst he
      simp [cross_mode_error]
    | false => simp at he
  · rw [if_neg hout] at he
    exact Except.noConfusion he

theorem get_surr_params_safe_not_cross (r : SurrogateData) (x : ℚ) (e : Exc)
    (he : get_surr_params_safe r x = .error e) : ¬ cross_mode_error e := by
  unfold get_surr_params_safe at he
  cases hc : check_training_interval r (r.get_surr_params x) true with
  | error err =>
    simp only [hc, Except.bind, Except.pure, Except.instMonad] at he
    cases he
    exact check_training_interval_not_cross _ _ _ _ hc
  | ok w =>
    simp only [hc, Except.bind, Except.pure, Except.instMonad] at he
    exact Except.noConfusion he

theorem _eim_coeffs_not_cross (gt : Gwtools) (r : SurrogateData) (x : ℚ)
    (mt : SurrogateModeType) (e : Exc)
    (he : _eim_coeffs gt r x mt = .error e) : ¬ cross_mode_error e := by
  unfold _eim_coeffs at he
  repeat' split at he
  all_goals try exact Except.noConfusion he
  all_goals (cases he; simp [cross_mode_error])

theorem _h_sur_not_cross (gt : Gwtools) (r : SurrogateData) (x : ℚ)
    (samples : Option (List ℚ)) (e : Exc)
    (he : _h_sur gt r x samples = .error e) : ¬ cross_mode_error e := by
  unfold _h_sur at he
  repeat' split at he
  all_goals try exact Except.noConfusion he
  all_goals try (cases he; simp [cross_mode_error])
  all_goals
    (have hnc := _eim_coeffs_not_cross gt r x _ e (by assumption)
     simp only [cross_mode_error, not_or] at hnc
     exact ⟨hnc.1, hnc.2.1, hnc.2.2⟩)

theorem find_instant_freq_not_cross (gt : Gwtools) (hp hc t : List ℚ)
    (f_low : Option ℚ) (e : Exc)
    (he : find_instant_freq gt hp hc t f_low = .error e) : ¬ cross_mode_error e := by
  unfold find_instant_freq at he
  cases f_low with
  | none => simp at he
  | some fl =>
    dsimp only at he
    by_cases hgt : |gt.find_instant_freq hp hc t| > fl
    · rw [if_pos hgt] at he
      cases he
      simp [cross_mode_error]
    · rw [if_neg hgt] at he
      exact Except.noConfusion he

theorem call_single_not_cross (gt : Gwtools) (r : SurrogateData) (q : ℚ)
    (M dist phi_ref f_low : Option ℚ) (samples : Option (List ℚ))
    (samples_units : String) (e : Exc)
    (he : call_single gt r q M dist phi_ref f_low samples samples_units = .error e) :
    ¬ cross_mode_error e := by
  simp only [call_single, Except.bind, Except.pure, Except.instMonad] at he
  repeat' split at he
  all_goals try exact Except.noConfusion he
  all_goals try (cases he; simp [cross_mode_error])
  all_goals solve_by_elim [not_cross_unfold, get_surr_params_safe_not_cross,
    _h_sur_not_cross, find_instant_freq_not_cross]

theorem evaluate_single_mode_not_cross (gt : Gwtools) (ms : MultiSurrogate) (q : ℚ)
    (M dist f_low : Option ℚ) (samples : Option (List ℚ)) (samples_units : String)
    (ell m : ℤ) (e : Exc)
    (he : evaluate_single_mode gt ms q M dist f_low samples samples_units ell m =
      .error e) :
    ¬ cross_mode_error e := by
  unfold evaluate_single_mode at he
  split at he
  · exact call_single_not_cross _ _ _ _ _ _ _ _ _ _ he
  · cases he
    simp [cross_mode_error]

theorem evaluate_single_mode_by_symmetry_not_cross (gt : Gwtools) (ms : MultiSurrogate)
    (q : ℚ) (M dist f_low : Option ℚ) (samples : Option (List ℚ))
    (samples_units : String) (ell m : ℤ) (e : Exc)
    (he : evaluate_single_mode_by_symmetry gt ms q M dist f_low samples samples_units
      ell m = .error e) :
    ¬ cross_mode_error e := by
  unfold evaluate_single_mode_by_symmetry at he
  by_cases hm : m < 0
  · rw [if_pos hm] at he
    cases hev : evaluate_single_mode gt ms q M dist f_low samples samples_units ell (-m) with
    | error err =>
      simp only [hev, Except.bind, Except.pure, Except.instMonad] at he
      cases he
      exact evaluate_single_mode_not_cross _ _ _ _ _ _ _ _ _ _ _ hev
    | ok v =>
      simp only [hev, Except.bind, Except.pure, Except.instMonad,
        _generate_minus_m_mode] at he
      by_cases hle : -m ≤ 0
      · rw [if_pos hle] at he
        cases he
        simp [cross_mode_error]
      · rw [if_neg hle] at he
        exact Except.noConfusion he
  · rw [if_neg hm] at he
    cases he
    simp [cross_mode_error]

theorem evaluate_on_sphere_not_cross (gt : Gwtools) (ell m : ℤ) (theta phi : Option ℚ)
    (hp_mode hc_mode : List ℚ) (e : Exc)
    (he : evaluate_on_sphere gt ell m theta phi hp_mode hc_mode = .error e) :
    ¬ cross_mode_error e := by
  unfold evaluate_on_sphere at he
  repeat' split at he
  all_goals try exact Except.noConfusion he
  all_goals (cases he; simp [cross_mode_error])

theorem modeLoop_not_cross (gt : Gwtools) (ms : MultiSurrogate) (q : ℚ)
    (M dist theta phi z_rot f_low : Option ℚ) (samples : Option (List ℚ))
    (samples_units : String) (fake_neg_modes mode_sum : Bool) (k : ℕ)
    (modeled_modes : List (ℤ × ℤ)) :
    ∀ (lst : List (ℤ × ℤ)) (ii : ℕ) (hp_full hc_full : OutArr)
      (t_mode : Option (List ℚ)) (e : Exc),
      modeLoop gt ms q M dist theta phi z_rot f_low samples samples_units
        fake_neg_modes mode_sum k modeled_modes lst ii hp_full hc_full t_mode =
        .error e →
      ¬ cross_mode_error e := by
  intro lst
  induction lst with
  | nil => intro ii hp hc t e he; exact Except.noConfusion he
  | cons p0 rest ih =>
    intro ii hp hc t e he
    obtain ⟨ell, m⟩ := p0
    simp only [modeLoop, Except.bind, Except.pure, Except.instMonad] at he
    repeat' split at he
    all_goals try exact ih _ _ _ _ _ he
    all_goals try (cases he)
    all_goals first
      | solve_by_elim [evaluate_single_mode_not_cross,
          evaluate_single_mode_by_symmetry_not_cross, evaluate_on_sphere_not_cross, ih]
      | simp [cross_mode_error]

theorem all_model_modes_false (ms : MultiSurrogate) :
    all_model_modes ms false = .ok (ms.single_mode_dict.map (fun p => p.1)) := rfl

theorem generate_mode_eval_list_not_cross (ms : MultiSurrogate) (arg : ModeArg)
    (minus_m : Bool) (e : Exc)
    (he : generate_mode_eval_list ms arg minus_m = .error e) :
    ¬ cross_mode_error e := by
  simp only [generate_mode_eval_list, all_model_modes_false, _extend_mode_list_minus_m,
    Except.bind, Except.pure, Except.instMonad] at he
  repeat' split at he
  all_goals try exact Except.noConfusion he
  all_goals (cases he; simp [cross_mode_error])

theorem multiCall_not_cross (gt : Gwtools) (ms : MultiSurrogate) (q : ℚ)
    (M dist theta phi z_rot f_low : Option ℚ) (samples : Option (List ℚ))
    (samples_units : String) (arg : ModeArg) (mode_sum fake : Bool) (e : Exc)
    (he : multiCall gt ms q M dist theta phi z_rot f_low samples samples_units arg
      mode_sum fake = .error e) : ¬ cross_mode_error e := by
  simp only [multiCall, all_model_modes_false, Except.bind, Except.pure,
    Except.instMonad] at he
  repeat' split at he
  all_goals try exact Except.noConfusion he
  all_goals try (cases he; simp [cross_mode_error])
  all_goals solve_by_elim [not_cross_unfold, generate_mode_eval_list_not_cross,
    modeLoop_not_cross]

/-- C9 (amended): construction of the multi-mode surrogate succeeds exactly
when every record agrees with the first on the time-grid LENGTH (the code
compares `time().shape`, not the sample values), on `fit_interval`, and on
the parameterization identity — any mismatch is fatal at construction; and
no evaluation call ever raises one of the three cross-mode inconsistency
errors: that check is not repeated at evaluation time. -/
theorem C9_construction_checks :
    (∀ (modes : List ((ℤ × ℤ) × SurrogateData)) (sym : Bool) (k0 : ℤ × ℤ)
      (r0 : SurrogateData) (rest : List ((ℤ × ℤ) × SurrogateData)),
      modes = (k0, r0) :: rest →
      (multiInitOk modes sym = true ↔
        ∀ p ∈ modes, p.2.times.length = r0.times.length ∧
          p.2.fit_interval = r0.fit_interval ∧ p.2.param_id = r0.param_id)) ∧
    (∀ (gt : Gwtools) (ms : MultiSurrogate) (q : ℚ)
      (M dist theta phi z_rot f_low : Option ℚ) (samples : Option (List ℚ))
      (samples_units : String) (arg : ModeArg) (mode_sum fake : Bool) (e : Exc),
      multiCall gt ms q M dist theta phi z_rot f_low samples samples_units arg
        mode_sum fake = .error e →
      ¬ cross_mode_error e) := by
  constructor
  · intro modes sym k0 r0 rest hm
    subst hm
    simp only [multiInitOk, multiSurrogateInit]
    split_ifs with h1 h2 h3
    · simp only [true_iff]
      intro p hp
      exact ⟨h1 p hp, h2 p hp, h3 p hp⟩
    · simp only [Bool.false_eq_true, false_iff]
      intro hall
      exact h3 (fun p hp => (hall p hp).2.2)
    · simp only [Bool.false_eq_true, false_iff]
      intro hall
      exact h2 (fun p hp => (hall p hp).2.1)
    · simp only [Bool.false_eq_true, false_iff]
      intro hall
      exact h1 (fun p hp => (hall p hp).1)
  · intro gt ms q M dist theta phi z_rot f_low samples samples_units arg mode_sum fake e
    exact multiCall_not_cross gt ms q M dist theta phi z_rot f_low samples
      samples_units arg mode_sum fake e

/-- C9 counterexample: two records with the same grid *shape* (3 samples)
but different time-sample *values* pass construction — the time samples are
not checked for pairwise equality, only their shape is. -/
theorem C9_shape_only_counterexample :
    recA.times ≠ recC9.times ∧
    multiInitOk [((2, 2), recA), ((3, 3), recC9)] true = true := by
  constructor
  · norm_num [recA, recC9, recW]
  · rfl

/-- C9 witness: the characterization at a one-record dictionary, and a
concrete evaluation error that is not a cross-mode inconsistency error. -/
theorem C9_construction_checks_witness :
    (multiInitOk [(((2 : ℤ), (2 : ℤ)), recA)] true = true ↔
      ∀ p ∈ [(((2 : ℤ), (2 : ℤ)), recA)], p.2.times.length = recA.times.length ∧
        p.2.fit_interval = recA.fit_interval ∧ p.2.param_id = recA.param_id) ∧
    ¬ cross_mode_error (Exc.valueError
      ("if use_orbital_plane_symmetry is not assumed, it is not possible to fake m<0 modes")) :=
  And.intro (C9_construction_checks.1 [((2, 2), recA)] true (2, 2) recA [] rfl)
   (C9_construction_checks.2 gtW msBad (1/2) none none none none none none none
     "dimensionless" (ModeArg.ellMax 2) false true
     (Exc.valueError
       ("if use_orbital_plane_symmetry is not assumed, it is not possible to fake m<0 modes"))
     rfl)

theorem matVecC_length (B : List (List Cq)) (v : List Cq) :
    (matVecC B v).length = B.length := by simp [matVecC]

theorem matVecQ_length (B : List (List ℚ)) (v : List ℚ) :
    (matVecQ B v).length = B.length := by simp [matVecQ]

theorem resample_B_length (r : SurrogateData) (s : List ℚ) :
    (resample_B r s).length = s.length := by
  cases s with
  | nil => rfl
  | cons a l =>
    simp only [resample_B]
    split <;> simp

theorem resample_B_1_length (r : SurrogateData) (s : List ℚ) :
    (resample_B_1 r s).length = s.length := by
  cases s with
  | nil => rfl
  | cons a l =>
    simp only [resample_B_1]
    split <;> simp

theorem resample_B_2_length (r : SurrogateData) (s : List ℚ) :
    (resample_B_2 r s).length = s.length := by
  cases s with
  | nil => rfl
  | cons a l =>
    simp only [resample_B_2]
    split <;> simp

theorem _h_sur_length (gt : Gwtools) (r : SurrogateData) (x : ℚ)
    (samples : Option (List ℚ)) (hp hc : List ℚ) (b : Bool) (hwf : recordWF r)
    (h : _h_sur gt r x samples = .ok (hp, hc, b)) :
    hp.length = nSamples r samples ∧ hc.length = nSamples r samples := by
  unfold _h_sur at h
  cases hmt : r.surrogate_mode_type with
  | waveform_basis =>
    rw [hmt] at h
    cases hec : _eim_coeffs gt r x SurrogateModeType.waveform_basis with
    | error e => rw [hec] at h; exact Except.noConfusion h
    | ok res =>
      rw [hec] at h
      cases res with
      | ampPhase a p n => exact Except.noConfusion h
      | eim hEIM =>
        cases samples with
        | none =>
          simp only [Except.ok.injEq, Prod.mk.injEq] at h
          obtain ⟨h1, h2, _⟩ := h
          rw [← h1, ← h2]
          simp [matVecC_length, nSamples, hwf.1 hmt]
        | some s =>
          simp only [Except.ok.injEq, Prod.mk.injEq] at h
          obtain ⟨h1, h2, _⟩ := h
          rw [← h1, ← h2]
          simp [matVecC_length, resample_B_length, nSamples]
  | amp_phase_basis =>
    rw [hmt] at h
    cases hec : _eim_coeffs gt r x SurrogateModeType.amp_phase_basis with
    | error e => rw [hec] at h; exact Except.noConfusion h
    | ok res =>
      rw [hec] at h
      cases res with
      | eim hEIM => exact Except.noConfusion h
      | ampPhase amp_eval phase_eval nrm_eval =>
        cases samples with
        | none =>
          simp only [Except.ok.injEq, Prod.mk.injEq] at h
          obtain ⟨h1, h2, _⟩ := h
          rw [← h1, ← h2]
          have hw := hwf.2 hmt
          simp [matVecQ_length, nSamples, hw.1, hw.2]
        | some s =>
          simp only [Except.ok.injEq, Prod.mk.injEq] at h
          obtain ⟨h1, h2, _⟩ := h
          rw [← h1, ← h2]
          simp [matVecQ_length, resample_B_1_length, resample_B_2_length, nSamples]

theorem modify_phase_length (gt : Gwtools) (h : List Cq) (phi : ℚ) :
    (modify_phase gt h phi).length = h.length := by simp [modify_phase]

theorem nSamples_map_pre (r : SurrogateData) (samples : Option (List ℚ)) (f : ℚ → ℚ) :
    nSamples r (Option.map (fun s => s.map f) samples) = nSamples r samples := by
  cases samples <;> simp [nSamples]

theorem _h_sur_length2 (gt : Gwtools) (r : SurrogateData) (x : ℚ)
    (samples : Option (List ℚ)) (v : List ℚ × List ℚ × Bool) (hwf : recordWF r)
    (h : _h_sur gt r x samples = Except.ok v) :
    v.1.length = nSamples r samples ∧ v.2.1.length = nSamples r samples :=
  _h_sur_length gt r x samples v.1 v.2.1 v.2.2 hwf (by rw [h])

theorem call_single_length (gt : Gwtools) (r : SurrogateData) (q : ℚ)
    (M dist phi_ref f_low : Option ℚ) (samples : Option (List ℚ))
    (samples_units : String) (t hp hc : List ℚ) (b : Bool) (hwf : recordWF r)
    (h : call_single gt r q M dist phi_ref f_low samples samples_units =
      .ok (t, hp, hc, b)) :
    hp.length = nSamples r samples ∧ hc.length = nSamples r samples := by
  simp only [call_single, Except.bind, Except.pure, Except.instMonad] at h
  repeat' split at h
  all_goals try exact Except.noConfusion h
  all_goals simp only [Except.ok.injEq, Prod.mk.injEq] at h
  all_goals obtain ⟨ht, hhp, hhc, hb⟩ := h
  all_goals subst hhp hhc
  all_goals have hl := _h_sur_length2 gt r _ _ _ hwf (by assumption)
  all_goals try simp only [nSamples_map_pre] at hl
  all_goals refine ⟨?_, ?_⟩
  all_goals simp [hl.1, hl.2, adjust_merger_phase, modify_phase,
    List.length_map, List.length_zipWith, min_self]
  all_goals try (split <;> simp [nSamples])

theorem nSamples_eq_nGrid (ms : MultiSurrogate) (r : SurrogateData)
    (samples : Option (List ℚ)) (hr : r.times.length = (time_grid ms).length) :
    nSamples r samples = nGrid ms samples := by
  cases samples <;> simp [nSamples, nGrid, hr]

theorem evaluate_single_mode_length (gt : Gwtools) (ms : MultiSurrogate) (q : ℚ)
    (M dist f_low : Option ℚ) (samples : Option (List ℚ)) (samples_units : String)
    (ell m : ℤ) (t hp hc : List ℚ) (b : Bool) (hwf : multiWF ms)
    (h : evaluate_single_mode gt ms q M dist f_low samples samples_units ell m =
      .ok (t, hp, hc, b)) :
    hp.length = nGrid ms samples ∧ hc.length = nGrid ms samples := by
  unfold evaluate_single_mode at h
  cases hf : ms.single_mode_dict.find? (fun p => p.1 == (ell, m)) with
  | none => rw [hf] at h; exact Except.noConfusion h
  | some p =>
    rw [hf] at h
    have hw := hwf p (List.mem_of_find?_eq_some hf)
    have hl := call_single_length gt p.2 q M dist none f_low samples samples_units
      t hp hc b hw.1 h
    rw [nSamples_eq_nGrid ms p.2 samples hw.2] at hl
    exact hl

theorem evaluate_single_mode_by_symmetry_length (gt : Gwtools) (ms : MultiSurrogate)
    (q : ℚ) (M dist f_low : Option ℚ) (samples : Option (List ℚ))
    (samples_units : String) (ell m : ℤ) (t hp hc : List ℚ) (b : Bool)
    (hwf : multiWF ms)
    (h : evaluate_single_mode_by_symmetry gt ms q M dist f_low samples samples_units
      ell m = .ok (t, hp, hc, b)) :
    hp.length = nGrid ms samples ∧ hc.length = nGrid ms samples := by
  unfold evaluate_single_mode_by_symmetry at h
  by_cases hm : m < 0
  · rw [if_pos hm] at h
    cases hev : evaluate_single_mode gt ms q M dist f_low samples samples_units ell (-m) with
    | error e =>
      simp only [hev, Except.bind, Except.instMonad] at h
      exact Except.noConfusion h
    | ok v =>
      have hl := evaluate_single_mode_length gt ms q M dist f_low samples samples_units
        ell (-m) v.1 v.2.1 v.2.2.1 v.2.2.2 hwf (by rw [hev])
      simp only [hev, Except.bind, Except.pure, Except.instMonad,
        _generate_minus_m_mode] at h
      split at h
      · exact Except.noConfusion h
      · rename_i v2 heq
        rw [if_neg (by omega : ¬(-m ≤ 0))] at heq
        simp only [Except.ok.injEq] at heq
        subst heq
        simp only [Except.ok.injEq, Prod.mk.injEq] at h
        obtain ⟨h1, h2, h3, h4⟩ := h
        rw [← h2, ← h3]
        constructor <;> simp [hl.1, hl.2]
  · rw [if_neg hm] at h
    exact Except.noConfusion h

theorem evaluate_on_sphere_length (gt : Gwtools) (ell m : ℤ) (theta phi : Option ℚ)
    (hp hc : List ℚ) (v : List ℚ × List ℚ) (n : ℕ)
    (hhp : hp.length = n) (hhc : hc.length = n)
    (h : evaluate_on_sphere gt ell m theta phi hp hc = Except.ok v) :
    v.1.length = n ∧ v.2.length = n := by
  unfold evaluate_on_sphere at h
  cases theta with
  | none =>
    simp only [Except.ok.injEq] at h
    subst h
    exact ⟨hhp, hhc⟩
  | some th =>
    cases phi with
    | none => exact Except.noConfusion h
    | some ph =>
      simp only [Except.ok.injEq] at h
      subst h
      constructor <;>
        simp [List.length_map, List.length_zipWith, hhp, hhc, min_self]

theorem prodFst_ite {α β : Type} (P : Prop) [Decidable P] (a b : α × β) :
    (if P then a else b).1 = if P then a.1 else b.1 := by split <;> rfl

theorem prodSnd_ite {α β : Type} (P : Prop) [Decidable P] (a b : α × β) :
    (if P then a else b).2 = if P then a.2 else b.2 := by split <;> rfl

theorem ShapeInv_step (mode_sum : Bool) (k n ii : ℕ) (o : OutArr) (w : List ℚ)
    (ho : ShapeInv mode_sum k n o) (hw : w.length = n) :
    ShapeInv mode_sum k n
      (if mode_sum then o.accum w else if k = 1 then OutArr.vec w else o.setCol ii w) := by
  by_cases hms : mode_sum = true
  · rw [if_pos hms]
    unfold ShapeInv at ho ⊢
    rw [if_pos (Or.inl hms)] at ho ⊢
    obtain ⟨v, rfl, hv⟩ := ho
    exact ⟨_, rfl, by simp [OutArr.accum, List.length_zipWith, hv, hw, min_self]⟩
  · rw [if_neg hms]
    by_cases hk : k = 1
    · rw [if_pos hk]
      unfold ShapeInv
      rw [if_pos (Or.inr hk)]
      exact ⟨w, rfl, hw⟩
    · rw [if_neg hk]
      unfold ShapeInv at ho ⊢
      rw [if_neg (not_or.mpr ⟨hms, hk⟩)] at ho ⊢
      obtain ⟨cols, rfl, hlen, hall⟩ := ho
      refine ⟨cols.set ii w, rfl, by simp [hlen], ?_⟩
      intro c hc
      rcases List.mem_or_eq_of_mem_set hc with hmem | hcw
      · exact hall c hmem
      · rw [hcw]; exact hw

theorem ShapeInv_alloc (ms : MultiSurrogate) (samples : Option (List ℚ))
    (mode_sum : Bool) (k : ℕ) :
    ShapeInv mode_sum k (nGrid ms samples)
      (if mode_sum then _allocate_output_array ms samples 1 mode_sum
        else _allocate_output_array ms samples k mode_sum).1 ∧
    ShapeInv mode_sum k (nGrid ms samples)
      (if mode_sum then _allocate_output_array ms samples 1 mode_sum
        else _allocate_output_array ms samples k mode_sum).2 := by
  have hsz : (match samples with
      | some s => s.length
      | none => (time_grid ms).length) = nGrid ms samples := by
    cases samples <;> rfl
  by_cases hms : mode_sum = true
  · rw [if_pos hms]
    constructor <;>
      · unfold ShapeInv _allocate_output_array
        rw [if_pos (Or.inl hms), if_pos rfl]
        exact ⟨_, rfl, by simp [hsz]⟩
  · rw [if_neg hms]
    by_cases hk : k = 1
    · constructor <;>
        · unfold ShapeInv _allocate_output_array
          rw [if_pos (Or.inr hk), if_pos hk]
          exact ⟨_, rfl, by simp [hsz]⟩
    · constructor <;>
        · unfold ShapeInv _allocate_output_array
          rw [if_neg (not_or.mpr ⟨hms, hk⟩), if_neg hk]
          refine ⟨_, rfl, by simp, ?_⟩
          intro c hc
          rw [List.eq_of_mem_replicate hc]
          simp [hsz]

theorem modeLoop_shape (gt : Gwtools) (ms : MultiSurrogate) (q : ℚ)
    (M dist theta phi z_rot f_low : Option ℚ) (samples : Option (List ℚ))
    (samples_units : String) (fake_neg_modes mode_sum : Bool) (k : ℕ)
    (modeled_modes : List (ℤ × ℤ)) (hwf : multiWF ms) :
    ∀ (lst : List (ℤ × ℤ)) (ii : ℕ) (hp_full hc_full : OutArr)
      (t_mode : Option (List ℚ)) (out : OutArr × OutArr × Option (List ℚ)),
      ShapeInv mode_sum k (nGrid ms samples) hp_full →
      ShapeInv mode_sum k (nGrid ms samples) hc_full →
      modeLoop gt ms q M dist theta phi z_rot f_low samples samples_units
        fake_neg_modes mode_sum k modeled_modes lst ii hp_full hc_full t_mode = .ok out →
      ShapeInv mode_sum k (nGrid ms samples) out.1 ∧
        ShapeInv mode_sum k (nGrid ms samples) out.2.1 := by
  intro lst
  induction lst with
  | nil =>
    intro ii hp_full hc_full t_mode out h1 h2 hok
    simp only [modeLoop, Except.ok.injEq] at hok
    subst hok
    exact ⟨h1, h2⟩
  | cons p0 rest ih =>
    intro ii hp_full hc_full t_mode out h1 h2 hok
    obtain ⟨ell, m⟩ := p0
    simp only [modeLoop, Except.bind, Except.pure, Except.instMonad,
      prodFst_ite, prodSnd_ite] at hok
    split at hok
    · split at hok
      · split at hok
        · exact Except.noConfusion hok
        · rename_i res heq
          split at hok
          · exact Except.noConfusion hok
          · rename_i hphcs heq2
            have hres := evaluate_single_mode_length gt ms q M dist f_low samples
              samples_units ell m res.1 res.2.1 res.2.2.1 res.2.2.2 hwf (by rw [heq])
            have hsph : hphcs.1.length = nGrid ms samples ∧
                hphcs.2.length = nGrid ms samples := by
              refine evaluate_on_sphere_length gt ell m theta phi _ _ hphcs
                (nGrid ms samples) ?_ ?_ heq2 <;>
                cases z_rot <;>
                simp [modify_phase, List.length_map, List.length_zipWith,
                  hres.1, hres.2, min_self]
            exact ih (ii + 1) _ _ (some res.1) out
              (ShapeInv_step mode_sum k (nGrid ms samples) ii hp_full hphcs.1 h1 hsph.1)
              (ShapeInv_step mode_sum k (nGrid ms samples) ii hc_full hphcs.2 h2 hsph.2)
              hok
      · split at hok
        · exact Except.noConfusion hok
        · rename_i res heq
          split at hok
          · exact Except.noConfusion hok
          · rename_i hphcs heq2
            have hres := evaluate_single_mode_by_symmetry_length gt ms q M dist f_low
              samples samples_units ell m res.1 res.2.1 res.2.2.1 res.2.2.2 hwf
              (by rw [heq])
            have hsph : hphcs.1.length = nGrid ms samples ∧
                hphcs.2.length = nGrid ms samples := by
              refine evaluate_on_sphere_length gt ell m theta phi _ _ hphcs
                (nGrid ms samples) ?_ ?_ heq2 <;>
                cases z_rot <;>
                simp [modify_phase, List.length_map, List.length_zipWith,
                  hres.1, hres.2, min_self]
            exact ih (ii + 1) _ _ (some res.1) out
              (ShapeInv_step mode_sum k (nGrid ms samples) ii hp_full hphcs.1 h1 hsph.1)
              (ShapeInv_step mode_sum k (nGrid ms samples) ii hc_full hphcs.2 h2 hsph.2)
              hok
    · exact Except.noConfusion hok

/-- C10: for every successful `EvaluateSurrogate.__call__`, the shape of
the returned polarization arrays depends on the number of requested modes:
with `mode_sum=False` and exactly one mode in the evaluation list, `h+` and
`hx` are one-dimensional arrays of length `n_samples` (not single-column
matrices); with `k > 1` modes they are `n_samples`-by-`k` arrays with one
column per requested mode; with `mode_sum=True` they are always
one-dimensional of length `n_samples` (`n_samples` = the `samples` length
if given, else the common time-grid length; the mode collection is
well-formed as guaranteed by a successful `__init__`). -/
theorem C10_output_shapes (gt : Gwtools) (ms : MultiSurrogate) (q : ℚ)
    (M dist theta phi z_rot f_low : Option ℚ) (samples : Option (List ℚ))
    (samples_units : String) (arg : ModeArg) (mode_sum fake_neg_modes : Bool)
    (out : MultiResult) (hwf : multiWF ms)
    (h : multiCall gt ms q M dist theta phi z_rot f_low samples samples_units arg
      mode_sum fake_neg_modes = .ok out) :
    (mode_sum = true → ∃ t hp hc, out = MultiResult.summed t hp hc ∧
      hp.length = nGrid ms samples ∧ hc.length = nGrid ms samples) ∧
    (mode_sum = false → ∃ modes t hp hc, out = MultiResult.perMode modes t hp hc ∧
      (modes.length = 1 → ∃ v w, hp = OutArr.vec v ∧ hc = OutArr.vec w ∧
        v.length = nGrid ms samples ∧ w.length = nGrid ms samples) ∧
      (modes.length ≠ 1 → ∃ vs ws, hp = OutArr.mat vs ∧ hc = OutArr.mat ws ∧
        vs.length = modes.length ∧ ws.length = modes.length ∧
        (∀ c ∈ vs, c.length = nGrid ms samples) ∧
        (∀ c ∈ ws, c.length = nGrid ms samples))) := by
  simp only [multiCall, Except.bind, Except.pure, Except.instMonad] at h
  repeat' split at h
  all_goals try exact Except.noConfusion h
  · rename_i hms a1 a2 hp0 hc0 e1 e2
    simp only [Except.ok.injEq] at h
    subst h
    have hinv := modeLoop_shape gt ms q M dist theta phi z_rot f_low samples
      samples_units fake_neg_modes mode_sum _ _ hwf _ _ _ _ _ _
      (ShapeInv_alloc ms samples mode_sum _).1
      (ShapeInv_alloc ms samples mode_sum _).2 (by assumption)
    refine ⟨fun _ => ?_, fun hf => ?_⟩
    · refine ⟨_, _, _, rfl, ?_, ?_⟩
      · have h1 := hinv.1
        unfold ShapeInv at h1
        rw [if_pos (Or.inl hms)] at h1
        obtain ⟨v, hv, hvl⟩ := h1
        rw [e1] at hv
        injection hv with hv2
        subst hv2
        exact hvl
      · have h2 := hinv.2
        unfold ShapeInv at h2
        rw [if_pos (Or.inl hms)] at h2
        obtain ⟨w, hw, hwl⟩ := h2
        rw [e2] at hw
        injection hw with hw2
        subst hw2
        exact hwl
    · rw [hf] at hms
      exact Bool.noConfusion hms
  · rename_i hms
    simp only [Except.ok.injEq] at h
    subst h
    have hinv := modeLoop_shape gt ms q M dist theta phi z_rot f_low samples
      samples_units fake_neg_modes mode_sum _ _ hwf _ _ _ _ _ _
      (ShapeInv_alloc ms samples mode_sum _).1
      (ShapeInv_alloc ms samples mode_sum _).2 (by assumption)
    refine ⟨fun hf => absurd hf hms, fun _ => ?_⟩
    refine ⟨_, _, _, _, rfl, ?_, ?_⟩
    · intro hk1
      have h1 := hinv.1
      have h2 := hinv.2
      unfold ShapeInv at h1 h2
      rw [if_neg hms] at h1 h2
      rw [if_pos (Or.inr hk1)] at h1 h2
      obtain ⟨v, hv, hvl⟩ := h1
      obtain ⟨w, hw, hwl⟩ := h2
      exact ⟨v, w, hv, hw, hvl, hwl⟩
    · intro hk
      have h1 := hinv.1
      have h2 := hinv.2
      unfold ShapeInv at h1 h2
      rw [if_neg hms] at h1 h2
      rw [if_neg (not_or.mpr ⟨hms, hk⟩)] at h1 h2
      obtain ⟨cols, hv, hlen, hall⟩ := h1
      obtain ⟨dols, hw, hlen2, hall2⟩ := h2
      exact ⟨cols, dols, hv, hw, hlen, hlen2, hall, hall2⟩

theorem C10_output_shapes_witness :
    multiWF msW ∧
    ((false = true → ∃ t hp hc,
        (MultiResult.perMode [((2 : ℤ), (2 : ℤ))] ([0, 1] : List ℚ)
          (OutArr.vec [1, 2]) (OutArr.vec [0, 0])) = MultiResult.summed t hp hc ∧
        hp.length = nGrid msW none ∧ hc.length = nGrid msW none) ∧
     (false = false → ∃ modes t hp hc,
        (MultiResult.perMode [((2 : ℤ), (2 : ℤ))] ([0, 1] : List ℚ)
          (OutArr.vec [1, 2]) (OutArr.vec [0, 0])) = MultiResult.perMode modes t hp hc ∧
        (modes.length = 1 → ∃ v w, hp = OutArr.vec v ∧ hc = OutArr.vec w ∧
          v.length = nGrid msW none ∧ w.length = nGrid msW none) ∧
        (modes.length ≠ 1 → ∃ vs ws, hp = OutArr.mat vs ∧ hc = OutArr.mat ws ∧
          vs.length = modes.length ∧ ws.length = modes.length ∧
          (∀ c ∈ vs, c.length = nGrid msW none) ∧
          (∀ c ∈ ws, c.length = nGrid msW none)))) := by
  have hwf : multiWF msW := by
    intro p hp
    simp only [msW, List.mem_singleton] at hp
    subst hp
    refine ⟨⟨fun _ => by simp [recW], fun hmt => by simp [recW] at hmt⟩, rfl⟩
  have hcall : multiCall gtW msW (1/2) none none none none none none none
      "dimensionless" (ModeArg.pairs [2] [2]) false false =
      .ok (MultiResult.perMode [((2 : ℤ), (2 : ℤ))] ([0, 1] : List ℚ)
        (OutArr.vec [1, 2]) (OutArr.vec [0, 0])) := by
    simp [multiCall, generate_mode_eval_list, all_model_modes, msW, sort_mode_list,
      insertMode, _allocate_output_array, time_grid, recW, modeLoop,
      evaluate_single_mode, call_single, get_surr_params_safe, check_training_interval,
      _h_sur, _eim_coeffs, _amp_eval, _phase_eval, _norm_eval, _affine_mapper,
      matVecC, dotC, gtW, Cq.smul, evaluate_on_sphere, find_instant_freq,
      MSUN_SI, PC_SI, Gconst, cconst, Msuninsec,
      Except.bind, Except.pure, Except.instMonad]
    norm_num
  exact ⟨hwf, C10_output_shapes gtW msW (1/2) none none none none none none none
    "dimensionless" (ModeArg.pairs [2] [2]) false false _ hwf hcall⟩
